import Mathlib

/-!
# Settings overlay of go-dappnode-shutter

A shallow embedding of `settings/keyper.go`, `settings/chain.go` and
`main.go`: the overlay of a typed config record and of environment variables
onto a template mapping `map[string]interface{}`, the two assemblers around
it, and the dispatcher.

Modelling conventions.

* A Go `interface{}` value is a `Value`: the untyped `nil`, or a value tagged
  with its dynamic type.  The dynamic types covered are the ones the overlay
  code creates or inspects (`string`, `int`, `int64`, `bool`, `[]string`) and
  the `[]interface{}` of strings that a template array decodes to.  Slices keep
  the distinction between the nil slice (`none`) and an allocated slice
  (`some xs`, possibly with no element), which `reflect.DeepEqual` observes.
  Other dynamic types a template can hold (floats, tables, dates) are never
  nil and are only ever copied back to their own key; they are left out.
* A Go map is a function from keys to optional values; it is taken to be
  allocated.  Reading an absent key gives `Value.nil`, as `m[k]` does in Go.
* A Go string is a Lean `String`; the separator and the digits inspected by the
  code are ASCII, so working on characters agrees with working on bytes.
* The environment is a function from variable names to optional strings;
  `os.Getenv` returns the empty string for an unset variable.
* A run-time panic is the result `none`.
* The file system, the TOML library and the `.env` loader are inputs of the
  assemblers and of `main`.  A run records its calls of `os.WriteFile` and how
  it ended; output on the console is left out.
-/

namespace Settings

/-! ## Values, mappings, environment -/

/-- A Go `interface{}` value together with its dynamic type. -/
inductive Value where
  | nil
  | str (s : String)
  | int (n : Int)
  | int64 (n : Int)
  | bool (b : Bool)
  | strSlice (xs : Option (List String))
  | ifaceSlice (xs : Option (List String))
  deriving DecidableEq

/-- The Go type `map[string]interface{}` (an allocated map). -/
abbrev ConfigMap := String → Option Value

/-- The map without any key. -/
def emptyMap : ConfigMap := fun _ => none

/-- Map read `m[k]`: the zero value of `interface{}` (nil) when the key is absent. -/
def index (m : ConfigMap) (k : String) : Value :=
  match m k with
  | some v => v
  | none => Value.nil

/-- Map assignment `m[k] = v`. -/
def assign (m : ConfigMap) (k : String) (v : Value) : ConfigMap :=
  fun j => if j = k then some v else m j

/-- The process environment. -/
abbrev Env := String → Option String

/-- The environment without any variable. -/
def emptyEnv : Env := fun _ => none

/-- Environment with the variable `k` set to `v`. -/
def setenv (e : Env) (k v : String) : Env :=
  fun j => if j = k then some v else e j

/-- Environment with the variable `k` removed. -/
def unsetenv (e : Env) (k : String) : Env :=
  fun j => if j = k then none else e j

/-- Go `os.Getenv`: the value of the variable, empty when it is unset. -/
def Getenv (e : Env) (k : String) : String :=
  match e k with
  | some v => v
  | none => ""

/-! ## Standard-library functions used by the overlay

`strconv.ParseInt`, `strconv.ParseBool`, `strings.Split` and `strings.Join`,
following the Go standard library for the arguments the overlay passes
(base 10, 64 bits, separator `,`). -/

/-- The two error kinds of `strconv` (`ErrSyntax` and `ErrRange`). -/
inductive NumError where
  | malformed
  | outOfRange
  deriving DecidableEq

/-- Largest `uint64`. -/
def maxUint64 : Nat := 2 ^ 64 - 1

/-- The cutoff of `strconv.ParseUint` in base 10: `maxUint64 / 10 + 1`. -/
def uintCutoff : Nat := maxUint64 / 10 + 1

/-- The digit loop of `strconv.ParseUint(s, 10, 64)` with accumulator `n`:
a byte that is not a decimal digit stops with a syntax error and value 0;
an overflow of `n * 10` or of `n * 10 + d` stops with a range error and the
largest `uint64`, without looking at the bytes that follow. -/
def parseUintLoop : List Char → Nat → Nat × Option NumError
  | [], n => (n, none)
  | c :: cs, n =>
    if c.isDigit = false then (0, some NumError.malformed)
    else if n ≥ uintCutoff then (maxUint64, some NumError.outOfRange)
    else
      let n10 := (n * 10) % 2 ^ 64
      let n1 := (n10 + (c.toNat - 48)) % 2 ^ 64
      if n1 < n10 ∨ n1 > maxUint64 then (maxUint64, some NumError.outOfRange)
      else parseUintLoop cs n1

/-- Go `strconv.ParseUint(s, 10, 64)` on the characters of `s`. -/
def ParseUint (s : List Char) : Nat × Option NumError :=
  match s with
  | [] => (0, some NumError.malformed)
  | _ => parseUintLoop s 0

/-- Go `strconv.ParseInt(s, 10, 64)`: optional sign, then `ParseUint`; a syntax
error gives 0, a range error gives the nearest `int64` bound. -/
def ParseInt (s : String) : Int × Option NumError :=
  match s.data with
  | [] => (0, some NumError.malformed)
  | c :: cs =>
    let neg : Bool := c = '-'
    let body := if c = '+' ∨ c = '-' then cs else c :: cs
    let r := ParseUint body
    if r.2 = some NumError.malformed then (0, some NumError.malformed)
    else if neg = false ∧ r.1 ≥ 2 ^ 63 then (2 ^ 63 - 1, some NumError.outOfRange)
    else if neg = true ∧ r.1 > 2 ^ 63 then (-(2 ^ 63), some NumError.outOfRange)
    else (if neg then -(r.1 : Int) else (r.1 : Int), none)

/-- The number denoted by a list of decimal digits read after the number `n`. -/
def decimalValue : List Char → Nat → Nat
  | [], n => n
  | c :: cs, n => decimalValue cs (n * 10 + (c.toNat - 48))

/-- Go `strconv.ParseBool`: the accepted tokens, anything else is a syntax
error with value `false`. -/
def ParseBool (s : String) : Bool × Option NumError :=
  if s = "1" ∨ s = "t" ∨ s = "T" ∨ s = "TRUE" ∨ s = "true" ∨ s = "True" then (true, none)
  else if s = "0" ∨ s = "f" ∨ s = "F" ∨ s = "FALSE" ∨ s = "false" ∨ s = "False" then (false, none)
  else (false, some NumError.malformed)

/-- The segments of a character list between occurrences of `sep`. -/
def splitChars (sep : Char) : List Char → List (List Char)
  | [] => [[]]
  | c :: cs =>
    if c = sep then [] :: splitChars sep cs
    else
      match splitChars sep cs with
      | [] => [[c]]
      | seg :: segs => (c :: seg) :: segs

/-- Go `strings.Split(s, ",")`: the substrings of `s` between the commas. -/
def Split (s : String) : List String :=
  (splitChars ',' s.data).map String.mk

/-- The concatenation of character lists with `sep` between consecutive ones. -/
def joinChars (sep : Char) : List (List Char) → List Char
  | [] => []
  | [x] => x
  | x :: y :: rest => x ++ sep :: joinChars sep (y :: rest)

/-- Go `strings.Join(elems, ",")`. -/
def Join (elems : List String) : String :=
  String.mk (joinChars ',' (elems.map String.data))

/-! ## settings/keyper.go -/

/-- The typed record `KeyperConfig`; the defaults are the Go zero values. -/
structure KeyperConfig where
  InstanceID : Int := 0
  MaxNumKeysPerMessage : Int := 0
  EncryptedGasLimit : Int := 0
  GenesisSlotTimestamp : Int := 0
  SyncStartBlockNumber : Int := 0
  KeyperSetManager : String := ""
  KeyBroadcastContract : String := ""
  Sequencer : String := ""
  ValidatorRegistry : String := ""
  DiscoveryNamespace : String := ""
  CustomBootstrapAddresses : Option (List String) := none
  DKGPhaseLength : Int := 0
  DKGStartBlockDelta : Int := 0
  DatabaseURL : String := ""
  BeaconAPIURL : String := ""
  ContractsURL : String := ""
  MaxTxPointerAge : Int := 0
  DeploymentDir : String := ""
  EthereumURL : String := ""
  ShuttermintURL : String := ""
  ListenAddresses : String := ""
  AdvertiseAddresses : String := ""
  ValidatorPublicKey : String := ""
  Enabled : Bool := false

/-- The `reflect.Kind`s that `parseEnvValue` distinguishes. -/
inductive Kind where
  | int
  | string
  | bool
  | slice
  deriving DecidableEq

/-- What reflection gives for one struct field: its name, its `env` tag, the
kind of its type, and its value in a record (`v.Field(i).Interface()`). -/
structure StructField where
  Name : String
  Tag : String
  Kind : Kind
  Interface : KeyperConfig → Value

/-- The fields of `KeyperConfig` in declared order. -/
def keyperFields : List StructField :=
  [ ⟨"InstanceID", "_ASSETS_INSTANCE_ID", Kind.int, fun c => Value.int c.InstanceID⟩,
    ⟨"MaxNumKeysPerMessage", "_ASSETS_MAX_NUM_KEYS_PER_MESSAGE", Kind.int,
      fun c => Value.int c.MaxNumKeysPerMessage⟩,
    ⟨"EncryptedGasLimit", "_ASSETS_ENCRYPTED_GAS_LIMIT", Kind.int,
      fun c => Value.int c.EncryptedGasLimit⟩,
    ⟨"GenesisSlotTimestamp", "_ASSETS_GENESIS_SLOT_TIMESTAMP", Kind.int,
      fun c => Value.int c.GenesisSlotTimestamp⟩,
    ⟨"SyncStartBlockNumber", "_ASSETS_SYNC_START_BLOCK_NUMBER", Kind.int,
      fun c => Value.int c.SyncStartBlockNumber⟩,
    ⟨"KeyperSetManager", "_ASSETS_KEYPER_SET_MANAGER", Kind.string,
      fun c => Value.str c.KeyperSetManager⟩,
    ⟨"KeyBroadcastContract", "_ASSETS_KEY_BROADCAST_CONTRACT", Kind.string,
      fun c => Value.str c.KeyBroadcastContract⟩,
    ⟨"Sequencer", "_ASSETS_SEQUENCER", Kind.string, fun c => Value.str c.Sequencer⟩,
    ⟨"ValidatorRegistry", "_ASSETS_VALIDATOR_REGISTRY", Kind.string,
      fun c => Value.str c.ValidatorRegistry⟩,
    ⟨"DiscoveryNamespace", "_ASSETS_DISCOVERY_NAME_PREFIX", Kind.string,
      fun c => Value.str c.DiscoveryNamespace⟩,
    ⟨"CustomBootstrapAddresses", "_ASSETS_CUSTOM_BOOTSTRAP_ADDRESSES", Kind.slice,
      fun c => Value.strSlice c.CustomBootstrapAddresses⟩,
    ⟨"DKGPhaseLength", "_ASSETS_DKG_PHASE_LENGTH", Kind.int,
      fun c => Value.int c.DKGPhaseLength⟩,
    ⟨"DKGStartBlockDelta", "_ASSETS_DKG_START_BLOCK_DELTA", Kind.int,
      fun c => Value.int c.DKGStartBlockDelta⟩,
    ⟨"DatabaseURL", "SHUTTER_DATABASE_URL", Kind.string, fun c => Value.str c.DatabaseURL⟩,
    ⟨"BeaconAPIURL", "SHUTTER_BEACONAPIURL", Kind.string, fun c => Value.str c.BeaconAPIURL⟩,
    ⟨"ContractsURL", "SHUTTER_GNOSIS_NODE_CONTRACTSURL", Kind.string,
      fun c => Value.str c.ContractsURL⟩,
    ⟨"MaxTxPointerAge", "SHUTTER_GNOSIS_MAXTXPOINTERAGE", Kind.int,
      fun c => Value.int c.MaxTxPointerAge⟩,
    ⟨"DeploymentDir", "SHUTTER_DEPLOYMENT_DIR", Kind.string,
      fun c => Value.str c.DeploymentDir⟩,
    ⟨"EthereumURL", "SHUTTER_GNOSIS_NODE_ETHEREUMURL", Kind.string,
      fun c => Value.str c.EthereumURL⟩,
    ⟨"ShuttermintURL", "SHUTTER_SHUTTERMINT_SHUTTERMINTURL", Kind.string,
      fun c => Value.str c.ShuttermintURL⟩,
    ⟨"ListenAddresses", "SHUTTER_P2P_LISTENADDRESSES", Kind.string,
      fun c => Value.str c.ListenAddresses⟩,
    ⟨"AdvertiseAddresses", "SHUTTER_P2P_ADVERTISEADDRESSES", Kind.string,
      fun c => Value.str c.AdvertiseAddresses⟩,
    ⟨"ValidatorPublicKey", "VALIDATOR_PUBLIC_KEY", Kind.string,
      fun c => Value.str c.ValidatorPublicKey⟩,
    ⟨"Enabled", "SHUTTER_ENABLED", Kind.bool, fun c => Value.bool c.Enabled⟩ ]

/-- Go `isZeroValue`: `reflect.DeepEqual(value, reflect.Zero(reflect.TypeOf(value)).Interface())`.
For the untyped nil, `reflect.TypeOf` is nil and `reflect.Zero(nil)` panics.
The zero value of a slice type is the nil slice, and `DeepEqual` tells a nil
slice from an allocated one. -/
def isZeroValue : Value → Option Bool
  | Value.nil => none
  | Value.str s => some (decide (s = ""))
  | Value.int n => some (decide (n = 0))
  | Value.int64 n => some (decide (n = 0))
  | Value.bool b => some (!b)
  | Value.strSlice xs => some xs.isNone
  | Value.ifaceSlice xs => some xs.isNone

/-- Go `setTemplateField`: assign unless the value is the zero value of its type. -/
def setTemplateField (templateConfig : ConfigMap) (key : String) (value : Value) :
    Option ConfigMap :=
  match isZeroValue value with
  | none => none
  | some true => some templateConfig
  | some false => some (assign templateConfig key value)

/-- Go `parseEnvValue`: the errors of `ParseInt` and `ParseBool` are dropped;
an integer kind yields an `int64`. -/
def parseEnvValue (value : String) (valueType : Kind) : Value :=
  match valueType with
  | Kind.int => Value.int64 (ParseInt value).1
  | Kind.bool => Value.bool (ParseBool value).1
  | Kind.slice => Value.strSlice (some (Split value))
  | Kind.string => Value.str value

/-- The body of the loop of `applyKeyperConfig` for one field: pick the final
value by priority (environment, then config, then template) and hand it to
`setTemplateField`. -/
def resolveField (env : Env) (keyperConfig : KeyperConfig) (templateConfig : ConfigMap)
    (field : StructField) : Option ConfigMap :=
  let envValue := Getenv env field.Tag
  if envValue ≠ "" then
    setTemplateField templateConfig field.Name (parseEnvValue envValue field.Kind)
  else
    match isZeroValue (field.Interface keyperConfig) with
    | none => none
    | some false => setTemplateField templateConfig field.Name (field.Interface keyperConfig)
    | some true => setTemplateField templateConfig field.Name (index templateConfig field.Name)

/-- The loop of `applyKeyperConfig` over a list of fields. -/
def applyFields (env : Env) (keyperConfig : KeyperConfig) :
    List StructField → ConfigMap → Option ConfigMap
  | [], templateConfig => some templateConfig
  | field :: rest, templateConfig =>
    match resolveField env keyperConfig templateConfig field with
    | none => none
    | some next => applyFields env keyperConfig rest next

/-- Go `applyKeyperConfig`: the loop over the fields of `KeyperConfig` in
declared order. -/
def applyKeyperConfig (env : Env) (templateConfig : ConfigMap) (keyperConfig : KeyperConfig) :
    Option ConfigMap :=
  applyFields env keyperConfig keyperFields templateConfig

/-! ## settings/chain.go -/

/-- The typed record `ChainConfig`. -/
structure ChainConfig where
  PrivateKey : String := ""
  InstanceID : String := ""

/-- Go `applyChainConfig`. -/
def applyChainConfig (templateConfig : ConfigMap) (chainConfig : ChainConfig) : ConfigMap :=
  let m1 :=
    if chainConfig.PrivateKey ≠ "" then
      assign templateConfig "PrivateKey" (Value.str chainConfig.PrivateKey)
    else templateConfig
  if chainConfig.InstanceID ≠ "" then assign m1 "InstanceID" (Value.str chainConfig.InstanceID)
  else m1

/-- Go `applyEnvOverrides`. -/
def applyEnvOverrides (env : Env) (templateConfig : ConfigMap) : ConfigMap :=
  let m1 :=
    if Getenv env "PRIVATE_KEY" ≠ "" then
      assign templateConfig "PrivateKey" (Value.str (Getenv env "PRIVATE_KEY"))
    else templateConfig
  if Getenv env "INSTANCE_ID" ≠ "" then
    assign m1 "InstanceID" (Value.str (Getenv env "INSTANCE_ID"))
  else m1

/-- The overlay steps of `AddSettingsToKeyper` between parsing and serializing. -/
def keyperOverlay (env : Env) (templateConfig : ConfigMap) (keyperConfig : KeyperConfig) :
    Option ConfigMap :=
  (applyKeyperConfig env templateConfig keyperConfig).map (applyEnvOverrides env)

/-- The overlay steps of `AddSettingsToChain` between parsing and serializing. -/
def chainOverlay (env : Env) (templateConfig : ConfigMap) (chainConfig : ChainConfig) :
    ConfigMap :=
  applyEnvOverrides env (applyChainConfig templateConfig chainConfig)

/-! ## Concrete inputs -/

/-- Build a map from a list of entries (later entries first in the list win). -/
def mapOf : List (String × Value) → ConfigMap
  | [] => emptyMap
  | (k, v) :: rest => assign (mapOf rest) k v

/-- Build an environment from a list of settings. -/
def envOf : List (String × String) → Env
  | [] => emptyEnv
  | (k, v) :: rest => setenv (envOf rest) k v

/-- The value, if any, that a result holds at a key (`none` for a panic). -/
def valueAt (r : Option ConfigMap) (k : String) : Option (Option Value) :=
  r.map (fun m => m k)

/-- A template that has an entry for every field of `KeyperConfig`. -/
def fullTemplate : ConfigMap :=
  mapOf
    [ ("InstanceID", Value.int64 1), ("MaxNumKeysPerMessage", Value.int64 500),
      ("EncryptedGasLimit", Value.int64 1000000), ("GenesisSlotTimestamp", Value.int64 1665396300),
      ("SyncStartBlockNumber", Value.int64 100), ("KeyperSetManager", Value.str "0xA"),
      ("KeyBroadcastContract", Value.str "0xB"), ("Sequencer", Value.str "0xC"),
      ("ValidatorRegistry", Value.str "0xD"), ("DiscoveryNamespace", Value.str "shutter"),
      ("CustomBootstrapAddresses", Value.ifaceSlice (some ["boot0"])),
      ("DKGPhaseLength", Value.int64 8), ("DKGStartBlockDelta", Value.int64 5),
      ("DatabaseURL", Value.str "postgres://db"), ("BeaconAPIURL", Value.str "http://beacon"),
      ("ContractsURL", Value.str "http://contracts"), ("MaxTxPointerAge", Value.int64 5),
      ("DeploymentDir", Value.str "./deployments"), ("EthereumURL", Value.str "http://eth"),
      ("ShuttermintURL", Value.str "http://shuttermint"),
      ("ListenAddresses", Value.str "/ip4/0.0.0.0/tcp/23003"),
      ("AdvertiseAddresses", Value.str "/ip4/127.0.0.1/tcp/23003"),
      ("ValidatorPublicKey", Value.str "0xE"), ("Enabled", Value.bool true),
      ("LogLevel", Value.str "info") ]

/-- The full template without the key `CustomBootstrapAddresses`. -/
def templateWithoutBootstrap : ConfigMap :=
  fun k => if k = "CustomBootstrapAddresses" then none else fullTemplate k

/-! ## Files, libraries and the outcome of a run -/

/-- What the file system holds at a path that exists. -/
inductive File where
  | content (text : String)
  | unreadable

/-- The file system as the program sees it: what each path holds (`none` when
nothing exists there) and whether `os.WriteFile` to a path succeeds. -/
structure FileSystem where
  file : String → Option File
  writable : String → Bool

/-- Go `os.ReadFile`: the text of the file, `none` for an error. -/
def ReadFile (fs : FileSystem) (path : String) : Option String :=
  match fs.file path with
  | some (File.content text) => some text
  | some File.unreadable => none
  | none => none

/-- Go `os.Stat` followed by `os.IsNotExist` on its error. -/
def statIsNotExist (fs : FileSystem) (path : String) : Bool :=
  match fs.file path with
  | none => true
  | some _ => false

/-- The libraries outside the repository, taken as parameters: the decoder of
go-toml/v2 into each of the three targets the code uses (`none` for an error),
its encoder, and `godotenv.Load`, which gives the environment after loading a
file (`none` for an error). -/
structure Libraries where
  unmarshalKeyper : String → Option KeyperConfig
  unmarshalChain : String → Option ChainConfig
  unmarshalMap : String → Option ConfigMap
  marshal : ConfigMap → Option String
  godotenvLoad : FileSystem → Env → String → Option Env

/-- The step of an assembler at which an error value is built. -/
inductive Step where
  | readConfig
  | parseConfig
  | readTemplate
  | parseTemplate
  | marshal
  | write
  deriving DecidableEq

/-- How a call of an assembler ends: `return nil`, `return fmt.Errorf(...)`,
`os.Exit(code)` inside the assembler, or a run-time panic. -/
inductive Outcome where
  | ok
  | error (step : Step)
  | exited (code : Nat)
  | panicked
  deriving DecidableEq

/-- A run of an assembler: the calls of `os.WriteFile` it made (path and
data, in order) and how it ended. -/
structure Run where
  writes : List (String × String)
  outcome : Outcome
  deriving DecidableEq

/-- Go `AddSettingsToKeyper`. -/
def AddSettingsToKeyper (lib : Libraries) (fs : FileSystem) (env : Env)
    (templateFilePath configFilePath outputFilePath : String) : Run :=
  match ReadFile fs configFilePath with
  | none => ⟨[], Outcome.error Step.readConfig⟩
  | some configFile =>
    match lib.unmarshalKeyper configFile with
    | none => ⟨[], Outcome.error Step.parseConfig⟩
    | some keyperConfig =>
      match ReadFile fs templateFilePath with
      | none => ⟨[], Outcome.error Step.readTemplate⟩
      | some templateFile =>
        match lib.unmarshalMap templateFile with
        | none => ⟨[], Outcome.error Step.parseTemplate⟩
        | some templateConfig =>
          match keyperOverlay env templateConfig keyperConfig with
          | none => ⟨[], Outcome.panicked⟩
          | some merged =>
            match lib.marshal merged with
            | none => ⟨[], Outcome.error Step.marshal⟩
            | some modifiedConfig =>
              if fs.writable outputFilePath then
                ⟨[(outputFilePath, modifiedConfig)], Outcome.ok⟩
              else ⟨[(outputFilePath, modifiedConfig)], Outcome.error Step.write⟩

/-- Go `AddSettingsToChain`: the chain config is read from the path in
`SHUTTER_CHAIN_CONFIG_FILE`, and a failure there ends the process with
`os.Exit(1)`. -/
def AddSettingsToChain (lib : Libraries) (fs : FileSystem) (env : Env)
    (templateFilePath outputFilePath : String) : Run :=
  let chainConfigPath := Getenv env "SHUTTER_CHAIN_CONFIG_FILE"
  if statIsNotExist fs chainConfigPath then ⟨[], Outcome.exited 1⟩
  else
    match ReadFile fs chainConfigPath with
    | none => ⟨[], Outcome.exited 1⟩
    | some chainConfigFile =>
      match lib.unmarshalChain chainConfigFile with
      | none => ⟨[], Outcome.exited 1⟩
      | some chainConfig =>
        match ReadFile fs templateFilePath with
        | none => ⟨[], Outcome.error Step.readTemplate⟩
        | some templateFile =>
          match lib.unmarshalMap templateFile with
          | none => ⟨[], Outcome.error Step.parseTemplate⟩
          | some templateConfig =>
            match lib.marshal (chainOverlay env templateConfig chainConfig) with
            | none => ⟨[], Outcome.error Step.marshal⟩
            | some modifiedConfig =>
              if fs.writable outputFilePath then
                ⟨[(outputFilePath, modifiedConfig)], Outcome.ok⟩
              else ⟨[(outputFilePath, modifiedConfig)], Outcome.error Step.write⟩

/-! ## main.go -/

/-- The call of an assembler that `main` makes, with its arguments. -/
inductive Call where
  | keyper (templateFilePath configFilePath outputFilePath : String)
  | chain (templateFilePath outputFilePath : String)
  deriving DecidableEq

/-- How the process ends: with an exit code, or by a run-time panic. -/
inductive ProcessEnd where
  | exit (code : Nat)
  | panicked
  deriving DecidableEq

/-- A run of `main`: the assembler call it made, if any, the calls of
`os.WriteFile`, and how the process ended. -/
structure MainRun where
  call : Option Call
  writes : List (String × String)
  status : ProcessEnd
  deriving DecidableEq

/-- What `main` does with the run of the assembler it called: an error value
goes to `log.Fatalf` (exit code 1), `nil` lets `main` return (exit code 0). -/
def finish (call : Call) (r : Run) : MainRun :=
  match r.outcome with
  | Outcome.ok => ⟨some call, r.writes, ProcessEnd.exit 0⟩
  | Outcome.error _ => ⟨some call, r.writes, ProcessEnd.exit 1⟩
  | Outcome.exited code => ⟨some call, r.writes, ProcessEnd.exit code⟩
  | Outcome.panicked => ⟨some call, r.writes, ProcessEnd.panicked⟩

/-- Go `main`, after `flag.Parse`: the three flag values and the positional
arguments `flag.Args()` are inputs. -/
def main (lib : Libraries) (fs : FileSystem) (env : Env)
    (templateFilePath configFilePath outputFilePath : String) (args : List String) : MainRun :=
  match lib.godotenvLoad fs env (Getenv env "ASSETS_DIR" ++ "/variables.env") with
  | none => ⟨none, [], ProcessEnd.exit 1⟩
  | some loaded =>
    match args with
    | [] => ⟨none, [], ProcessEnd.exit 1⟩
    | argument :: _ =>
      if argument = "include-keyper-settings" then
        if templateFilePath = "" ∨ configFilePath = "" ∨ outputFilePath = "" then
          ⟨none, [], ProcessEnd.exit 1⟩
        else
          finish (Call.keyper templateFilePath configFilePath outputFilePath)
            (AddSettingsToKeyper lib fs loaded templateFilePath configFilePath outputFilePath)
      else if argument = "include-chain-settings" then
        if configFilePath = "" ∨ outputFilePath = "" then ⟨none, [], ProcessEnd.exit 1⟩
        else
          finish (Call.chain configFilePath outputFilePath)
            (AddSettingsToChain lib fs loaded configFilePath outputFilePath)
      else ⟨none, [], ProcessEnd.exit 1⟩

/-! ## Libraries and files for concrete runs -/

/-- The text of the entry at a key when that entry is a string, else empty. -/
def textAt (m : ConfigMap) (k : String) : String :=
  match m k with
  | some (Value.str s) => s
  | _ => ""

/-- Stand-in libraries for concrete runs, over a one-line file format: a file
decoded as a mapping gives its text as the entry `PrivateKey`; decoded as a
chain or keyper config it gives its text as the field `InstanceID`
(for the keyper config, through `ParseInt`); the encoder writes the `PrivateKey`
and `InstanceID` texts separated by a slash; loading the `.env` file adds
nothing to the environment. -/
def lineLibraries : Libraries where
  unmarshalKeyper := fun text => some { InstanceID := (ParseInt text).1 }
  unmarshalChain := fun text => some { InstanceID := text }
  unmarshalMap := fun text => some (mapOf [("PrivateKey", Value.str text)])
  marshal := fun m => some (textAt m "PrivateKey" ++ "/" ++ textAt m "InstanceID")
  godotenvLoad := fun _ env _ => some env

/-- A file system built from a list of readable files; every path is writable. -/
def filesOf : List (String × String) → FileSystem
  | [] => ⟨fun _ => none, fun _ => true⟩
  | (path, text) :: rest =>
    ⟨fun p => if p = path then some (File.content text) else (filesOf rest).file p,
     fun _ => true⟩

/-! ## Closed forms used in the statements -/

/-- The entry that one loop iteration leaves at the key of its field, given
the entry `old` found there. -/
def resolved (env : Env) (keyperConfig : KeyperConfig) (field : StructField)
    (old : Option Value) : Option Value :=
  if Getenv env field.Tag ≠ "" then
    (if isZeroValue (parseEnvValue (Getenv env field.Tag) field.Kind) = some false then
      some (parseEnvValue (Getenv env field.Tag) field.Kind)
    else old)
  else if isZeroValue (field.Interface keyperConfig) = some false then
    some (field.Interface keyperConfig)
  else old

/-- Whether one loop iteration returns, given the entry `old` at its key. -/
def returns (env : Env) (keyperConfig : KeyperConfig) (field : StructField)
    (old : Option Value) : Prop :=
  Getenv env field.Tag ≠ "" ∨
    (isZeroValue (field.Interface keyperConfig) = some false) ∨
    (isZeroValue (field.Interface keyperConfig) = some true ∧
      old ≠ none ∧ old ≠ some Value.nil)

/-! ## Basic facts about maps and the environment -/

theorem assign_same (m : ConfigMap) (k : String) (v : Value) : assign m k v k = some v := by
  simp [assign]

theorem assign_other (m : ConfigMap) (k j : String) (v : Value) (h : j ≠ k) :
    assign m k v j = m j := by
  simp [assign, h]

/-- Writing back the value read at a key leaves the map as it is, whenever the
key is present. -/
theorem assign_index_of_ne_nil (m : ConfigMap) (k : String) (h : index m k ≠ Value.nil) :
    assign m k (index m k) = m := by
  funext j
  by_cases hj : j = k
  · subst hj
    cases hm : m j with
    | none => simp [index, hm] at h
    | some v => simp [assign, index, hm]
  · simp [assign, hj]

theorem isZeroValue_eq_none_iff (v : Value) : isZeroValue v = none ↔ v = Value.nil := by
  cases v <;> simp [isZeroValue]

theorem isZeroValue_parseEnvValue_ne_none (s : String) (k : Kind) :
    isZeroValue (parseEnvValue s k) ≠ none := by
  cases k <;> simp [parseEnvValue, isZeroValue]

/-! ## What `setTemplateField` and one loop iteration do -/

theorem setTemplateField_frame {m m' : ConfigMap} {k : String} {v : Value}
    (h : setTemplateField m k v = some m') (j : String) (hj : j ≠ k) : m' j = m j := by
  unfold setTemplateField at h
  cases hz : isZeroValue v with
  | none => simp [hz] at h
  | some b =>
    cases b with
    | true => simp [hz] at h; rw [← h]
    | false => simp [hz] at h; rw [← h]; exact assign_other m k j v hj

theorem index_ne_nil_iff (m : ConfigMap) (k : String) :
    index m k ≠ Value.nil ↔ (m k ≠ none ∧ m k ≠ some Value.nil) := by
  cases hm : m k <;> simp [index, hm]

theorem setTemplateField_index_self (m : ConfigMap) (k : String)
    (h : index m k ≠ Value.nil) : setTemplateField m k (index m k) = some m := by
  unfold setTemplateField
  cases hz : isZeroValue (index m k) with
  | none => exact absurd ((isZeroValue_eq_none_iff _).1 hz) h
  | some b =>
    cases b with
    | true => rfl
    | false => simp [assign_index_of_ne_nil m k h]

theorem resolveField_frame {env : Env} {c : KeyperConfig} {m m' : ConfigMap} {f : StructField}
    (h : resolveField env c m f = some m') (j : String) (hj : j ≠ f.Name) : m' j = m j := by
  unfold resolveField at h
  by_cases he : Getenv env f.Tag = ""
  · simp only [he, ne_eq, not_true_eq_false, if_false] at h
    cases hz : isZeroValue (f.Interface c) with
    | none => simp [hz] at h
    | some b =>
      cases b with
      | true => simp only [hz] at h; exact setTemplateField_frame h j hj
      | false => simp only [hz] at h; exact setTemplateField_frame h j hj
  · simp only [ne_eq, he, not_false_eq_true, if_true] at h
    exact setTemplateField_frame h j hj

theorem setTemplateField_at {m m' : ConfigMap} {k : String} {v : Value}
    (h : setTemplateField m k v = some m') :
    m' k = if isZeroValue v = some false then some v else m k := by
  unfold setTemplateField at h
  cases hz : isZeroValue v with
  | none => simp [hz] at h
  | some b =>
    cases b with
    | true => simp [hz] at h; simp [← h]
    | false => simp [hz] at h; simp [← h, assign_same]

theorem resolveField_at {env : Env} {c : KeyperConfig} {m m' : ConfigMap} {f : StructField}
    (h : resolveField env c m f = some m') : m' f.Name = resolved env c f (m f.Name) := by
  unfold resolveField at h
  unfold resolved
  by_cases he : Getenv env f.Tag = ""
  · simp only [he, ne_eq, not_true_eq_false, if_false] at h ⊢
    cases hz : isZeroValue (f.Interface c) with
    | none => simp [hz] at h
    | some b =>
      cases b with
      | true =>
        simp only [hz] at h
        have hn : index m f.Name ≠ Value.nil := by
          intro hnil
          simp [hnil, setTemplateField, isZeroValue] at h
        rw [setTemplateField_index_self m f.Name hn] at h
        simp at h
        simp [← h]
      | false =>
        simp only [hz] at h
        rw [setTemplateField_at h]
        simp [hz]
  · simp only [ne_eq, he, not_false_eq_true, if_true] at h ⊢
    exact setTemplateField_at h

theorem resolveField_isSome_iff (env : Env) (c : KeyperConfig) (m : ConfigMap) (f : StructField) :
    (resolveField env c m f).isSome ↔ returns env c f (m f.Name) := by
  unfold resolveField returns
  by_cases he : Getenv env f.Tag = ""
  · simp only [he, ne_eq, not_true_eq_false, if_false, false_or]
    cases hz : isZeroValue (f.Interface c) with
    | none => simp
    | some b =>
      cases b with
      | false =>
        simp [setTemplateField, hz]
      | true =>
        simp only [Option.some.injEq, Bool.true_eq_false, false_or, true_and]
        rw [← ne_eq, ← ne_eq, ← index_ne_nil_iff]
        constructor
        · intro h hnil
          simp [hnil, setTemplateField, isZeroValue] at h
        · intro h
          simp [setTemplateField_index_self m f.Name h]
  · simp only [ne_eq, he, not_false_eq_true, if_true, true_or, iff_true]
    unfold setTemplateField
    cases hz : isZeroValue (parseEnvValue (Getenv env f.Tag) f.Kind) with
    | none => exact absurd hz (isZeroValue_parseEnvValue_ne_none _ _)
    | some b => cases b <;> simp

/-! ## The loop over a list of fields -/

theorem applyFields_frame {env : Env} {c : KeyperConfig} (l : List StructField) :
    ∀ (m m' : ConfigMap), applyFields env c l m = some m' →
      ∀ j, j ∉ l.map StructField.Name → m' j = m j := by
  induction l with
  | nil =>
    intro m m' h j _
    simp [applyFields] at h
    rw [h]
  | cons f rest ih =>
    intro m m' h j hj
    simp only [List.map_cons, List.mem_cons, not_or] at hj
    unfold applyFields at h
    cases hr : resolveField env c m f with
    | none => simp [hr] at h
    | some next =>
      simp only [hr] at h
      rw [ih next m' h j hj.2]
      exact resolveField_frame hr j hj.1

theorem applyFields_at {env : Env} {c : KeyperConfig} (l : List StructField) :
    ∀ (m m' : ConfigMap), (l.map StructField.Name).Nodup → applyFields env c l m = some m' →
      ∀ f ∈ l, m' f.Name = resolved env c f (m f.Name) := by
  induction l with
  | nil => intro m m' _ _ f hf; simp at hf
  | cons g rest ih =>
    intro m m' hnd h f hf
    simp only [List.map_cons, List.nodup_cons] at hnd
    unfold applyFields at h
    cases hr : resolveField env c m g with
    | none => simp [hr] at h
    | some next =>
      simp only [hr] at h
      rcases List.mem_cons.1 hf with hfg | hfr
      · subst hfg
        rw [applyFields_frame rest next m' h f.Name hnd.1]
        exact resolveField_at hr
      · have hne : f.Name ≠ g.Name := by
          intro heq
          exact hnd.1 (heq ▸ List.mem_map_of_mem StructField.Name hfr)
        rw [ih next m' hnd.2 h f hfr, resolveField_frame hr f.Name hne]

theorem applyFields_isSome_iff {env : Env} {c : KeyperConfig} (l : List StructField) :
    ∀ (m : ConfigMap), (l.map StructField.Name).Nodup →
      ((applyFields env c l m).isSome ↔ ∀ f ∈ l, returns env c f (m f.Name)) := by
  induction l with
  | nil => intro m _; simp [applyFields]
  | cons g rest ih =>
    intro m hnd
    simp only [List.map_cons, List.nodup_cons] at hnd
    unfold applyFields
    cases hr : resolveField env c m g with
    | none =>
      have hg : ¬ returns env c g (m g.Name) := by
        rw [← resolveField_isSome_iff, hr]; simp
      simp only [Option.isSome_none, Bool.false_eq_true, false_iff]
      intro hall
      exact hg (hall g (List.mem_cons_self _ _))
    | some next =>
      have hg : returns env c g (m g.Name) := by
        rw [← resolveField_isSome_iff, hr]; simp
      simp only []
      rw [ih next hnd.2]
      constructor
      · intro hall f hf
        rcases List.mem_cons.1 hf with hfg | hfr
        · subst hfg; exact hg
        · have hne : f.Name ≠ g.Name := by
            intro heq
            exact hnd.1 (heq ▸ List.mem_map_of_mem StructField.Name hfr)
          rw [← resolveField_frame hr f.Name hne]
          exact hall f hfr
      · intro hall f hfr
        have hne : f.Name ≠ g.Name := by
          intro heq
          exact hnd.1 (heq ▸ List.mem_map_of_mem StructField.Name hfr)
        rw [resolveField_frame hr f.Name hne]
        exact hall f (List.mem_cons_of_mem _ hfr)

theorem keyperFields_names_nodup : (keyperFields.map StructField.Name).Nodup := by
  decide

theorem keyperFields_tags_nodup : (keyperFields.map StructField.Tag).Nodup := by
  decide

theorem keyperFields_interface_ne_nil (c : KeyperConfig) :
    ∀ f ∈ keyperFields, isZeroValue (f.Interface c) ≠ none := by
  intro f hf
  simp only [keyperFields, List.mem_cons, List.mem_singleton, List.not_mem_nil, or_false] at hf
  rcases hf with h | h | h | h | h | h | h | h | h | h | h | h | h | h | h | h | h | h | h | h |
    h | h | h | h <;> subst h <;> simp [isZeroValue]

/-- Entry of the result of `applyKeyperConfig` at the key of a schema field. -/
theorem applyKeyperConfig_at {env : Env} {tmpl m' : ConfigMap} {c : KeyperConfig}
    (h : applyKeyperConfig env tmpl c = some m') (f : StructField) (hf : f ∈ keyperFields) :
    m' f.Name = resolved env c f (tmpl f.Name) :=
  applyFields_at keyperFields tmpl m' keyperFields_names_nodup h f hf

/-- Entry of the result of `applyKeyperConfig` at a key that names no field. -/
theorem applyKeyperConfig_frame {env : Env} {tmpl m' : ConfigMap} {c : KeyperConfig}
    (h : applyKeyperConfig env tmpl c = some m') (j : String)
    (hj : j ∉ keyperFields.map StructField.Name) : m' j = tmpl j :=
  applyFields_frame keyperFields tmpl m' h j hj

/-- The loop returns exactly when every iteration finds something to write or
a non-nil template entry to fall back to. -/
theorem applyKeyperConfig_isSome_iff (env : Env) (tmpl : ConfigMap) (c : KeyperConfig) :
    (applyKeyperConfig env tmpl c).isSome ↔
      ∀ f ∈ keyperFields, returns env c f (tmpl f.Name) :=
  applyFields_isSome_iff keyperFields tmpl keyperFields_names_nodup

/-- Two runs of the loop over the same template agree as soon as the lists of
fields carry the same fields, every field returns in one run exactly when it
does in the other, and every field resolves to the same entry. -/
theorem applyFields_ext {env env' : Env} {c c' : KeyperConfig} {l l' : List StructField}
    (m : ConfigMap) (hnd : (l.map StructField.Name).Nodup)
    (hnd' : (l'.map StructField.Name).Nodup) (hmem : ∀ f, f ∈ l ↔ f ∈ l')
    (hret : ∀ f ∈ l, (returns env c f (m f.Name) ↔ returns env' c' f (m f.Name)))
    (hval : ∀ f ∈ l, resolved env c f (m f.Name) = resolved env' c' f (m f.Name)) :
    applyFields env c l m = applyFields env' c' l' m := by
  have hsome : (applyFields env c l m).isSome ↔ (applyFields env' c' l' m).isSome := by
    rw [applyFields_isSome_iff l m hnd, applyFields_isSome_iff l' m hnd']
    constructor
    · intro h f hf
      exact (hret f ((hmem f).2 hf)).1 (h f ((hmem f).2 hf))
    · intro h f hf
      exact (hret f hf).2 (h f ((hmem f).1 hf))
  cases h1 : applyFields env c l m with
  | none =>
    cases h2 : applyFields env' c' l' m with
    | none => rfl
    | some b => rw [h1, h2] at hsome; simp at hsome
  | some a =>
    cases h2 : applyFields env' c' l' m with
    | none => rw [h1, h2] at hsome; simp at hsome
    | some b =>
      congr 1
      funext j
      by_cases hj : j ∈ l.map StructField.Name
      · obtain ⟨f, hf, hfj⟩ := List.mem_map.1 hj
        subst hfj
        rw [applyFields_at l m a hnd h1 f hf, applyFields_at l' m b hnd' h2 f ((hmem f).1 hf)]
        exact hval f hf
      · have hj' : j ∉ l'.map StructField.Name := by
          intro hmem'
          obtain ⟨f, hf, hfj⟩ := List.mem_map.1 hmem'
          exact hj (List.mem_map.2 ⟨f, (hmem f).2 hf, hfj⟩)
        rw [applyFields_frame l m a h1 j hj, applyFields_frame l' m b h2 j hj']

theorem keyperFields_tag_ne {f g : StructField} (hf : f ∈ keyperFields) (hg : g ∈ keyperFields)
    (hne : g.Name ≠ f.Name) : g.Tag ≠ f.Tag := by
  intro htag
  have := List.inj_on_of_nodup_map keyperFields_tags_nodup hg hf htag
  exact hne (by rw [this])

theorem Getenv_unsetenv_self (env : Env) (k : String) : Getenv (unsetenv env k) k = "" := by
  simp [Getenv, unsetenv]

theorem Getenv_unsetenv_other (env : Env) (k j : String) (h : j ≠ k) :
    Getenv (unsetenv env k) j = Getenv env j := by
  simp [Getenv, unsetenv, h]

theorem ParseInt_malformed_value (s : String) (h : (ParseInt s).2 = some NumError.malformed) :
    (ParseInt s).1 = 0 := by
  unfold ParseInt at h ⊢
  cases hd : s.data with
  | nil => simp
  | cons c cs =>
    simp only [hd] at h ⊢
    by_cases h1 : (ParseUint (if c = '+' ∨ c = '-' then cs else c :: cs)).2
        = some NumError.malformed
    · simp [h1]
    · simp only [h1, if_false] at h
      split_ifs at h <;> simp at h

/-! ## Splitting at a separator -/

theorem splitChars_ne_nil (sep : Char) (l : List Char) : splitChars sep l ≠ [] := by
  cases l with
  | nil => simp [splitChars]
  | cons c cs =>
    unfold splitChars
    by_cases h : c = sep
    · simp [h]
    · simp only [h, if_false]
      cases splitChars sep cs <;> simp

theorem splitChars_sep_free (sep : Char) (l : List Char) :
    ∀ seg ∈ splitChars sep l, sep ∉ seg := by
  induction l with
  | nil => intro seg h; simp [splitChars] at h; simp [h]
  | cons c cs ih =>
    intro seg h
    unfold splitChars at h
    by_cases hc : c = sep
    · simp only [hc, if_true, List.mem_cons] at h
      rcases h with h | h
      · simp [h]
      · exact ih seg h
    · simp only [hc, if_false] at h
      cases hs : splitChars sep cs with
      | nil => exact absurd hs (splitChars_ne_nil sep cs)
      | cons s0 ss =>
        simp only [hs, List.mem_cons] at h
        rcases h with h | h
        · subst h
          have h0 : sep ∉ s0 := ih s0 (by simp [hs])
          simp only [List.mem_cons, not_or]
          exact ⟨fun e => hc e.symm, h0⟩
        · exact ih seg (by simp [hs, h])

theorem joinChars_splitChars (sep : Char) (l : List Char) :
    joinChars sep (splitChars sep l) = l := by
  induction l with
  | nil => simp [splitChars, joinChars]
  | cons c cs ih =>
    unfold splitChars
    by_cases hc : c = sep
    · simp only [hc, if_true]
      cases hs : splitChars sep cs with
      | nil => exact absurd hs (splitChars_ne_nil sep cs)
      | cons s0 ss =>
        rw [hs] at ih
        simp [joinChars, ih]
    · simp only [hc, if_false]
      cases hs : splitChars sep cs with
      | nil => exact absurd hs (splitChars_ne_nil sep cs)
      | cons s0 ss =>
        rw [hs] at ih
        cases ss with
        | nil => simp [joinChars] at ih ⊢; exact ih
        | cons s1 rest => simp [joinChars] at ih ⊢; exact ih

theorem splitChars_of_sep_free (sep : Char) (x : List Char) (hx : sep ∉ x) :
    splitChars sep x = [x] := by
  induction x with
  | nil => simp [splitChars]
  | cons c cs ih =>
    simp only [List.mem_cons, not_or] at hx
    have hc : ¬ c = sep := fun e => hx.1 e.symm
    unfold splitChars
    simp [hc, ih hx.2]

theorem splitChars_append_sep (sep : Char) (x rest : List Char) (hx : sep ∉ x) :
    splitChars sep (x ++ sep :: rest) = x :: splitChars sep rest := by
  induction x with
  | nil => simp [splitChars]
  | cons c cs ih =>
    simp only [List.mem_cons, not_or] at hx
    have hc : ¬ c = sep := fun e => hx.1 e.symm
    simp only [List.cons_append]
    rw [splitChars]
    simp [hc, ih hx.2]

theorem splitChars_joinChars (sep : Char) (segs : List (List Char)) (hne : segs ≠ [])
    (hfree : ∀ seg ∈ segs, sep ∉ seg) : splitChars sep (joinChars sep segs) = segs := by
  induction segs with
  | nil => exact absurd rfl hne
  | cons x rest ih =>
    cases rest with
    | nil =>
      simp only [joinChars]
      exact splitChars_of_sep_free sep x (hfree x (by simp))
    | cons y rest2 =>
      simp only [joinChars]
      rw [splitChars_append_sep sep x _ (hfree x (by simp))]
      rw [ih (by simp) (fun seg hseg => hfree seg (List.mem_cons_of_mem _ hseg))]

theorem Split_sep_free (s : String) : ∀ x ∈ Split s, ',' ∉ x.data := by
  intro x hx
  unfold Split at hx
  obtain ⟨seg, hseg, rfl⟩ := List.mem_map.1 hx
  exact splitChars_sep_free ',' s.data seg hseg

theorem map_data_map_mk (l : List (List Char)) : (l.map String.mk).map String.data = l := by
  induction l with
  | nil => rfl
  | cons x xs ih => simp [ih]

theorem map_mk_map_data (l : List String) : (l.map String.data).map String.mk = l := by
  induction l with
  | nil => rfl
  | cons x xs ih => simp [ih]

theorem Join_Split (s : String) : Join (Split s) = s := by
  unfold Join Split
  rw [map_data_map_mk, joinChars_splitChars]

theorem Split_Join (elems : List String) (hne : elems ≠ [])
    (hfree : ∀ x ∈ elems, ',' ∉ x.data) : Split (Join elems) = elems := by
  unfold Join Split
  simp only []
  rw [splitChars_joinChars ',' (elems.map String.data) (by simpa using hne)]
  · exact map_mk_map_data elems
  · intro seg hseg
    obtain ⟨x, hx, rfl⟩ := List.mem_map.1 hseg
    exact hfree x hx

/-! ## The integer and boolean parsers -/

theorem le_decimalValue (cs : List Char) : ∀ n, n ≤ decimalValue cs n := by
  induction cs with
  | nil => intro n; simp [decimalValue]
  | cons c cs ih =>
    intro n
    unfold decimalValue
    have := ih (n * 10 + (c.toNat - 48))
    omega

theorem digit_toNat_le (c : Char) (h : c.isDigit = true) : c.toNat - 48 ≤ 9 := by
  simp only [Char.isDigit, Bool.and_eq_true, decide_eq_true_eq] at h
  have h2 : c.val ≤ 57 := h.2
  have h3 : c.toNat ≤ 57 := by
    simpa [Char.toNat] using h2
  omega

/-- On decimal digits the loop of `ParseUint` computes the denoted number, or
stops with a range error and the largest `uint64` when that number does not
fit in 64 bits. -/
theorem parseUintLoop_digits (cs : List Char) (hd : ∀ c ∈ cs, c.isDigit = true) :
    ∀ n, n ≤ maxUint64 →
      parseUintLoop cs n =
        if decimalValue cs n ≤ maxUint64 then (decimalValue cs n, none)
        else (maxUint64, some NumError.outOfRange) := by
  induction cs with
  | nil => intro n hn; simp [parseUintLoop, decimalValue, hn]
  | cons c cs ih =>
    intro n hn
    have hc : c.isDigit = true := hd c (List.mem_cons_self _ _)
    have hd9 := digit_toNat_le c hc
    have hmono := le_decimalValue cs (n * 10 + (c.toNat - 48))
    have hmax : maxUint64 = 18446744073709551615 := by norm_num [maxUint64]
    have hcut : uintCutoff = 1844674407370955162 := by norm_num [uintCutoff, maxUint64]
    have h64 : (2 : Nat) ^ 64 = 18446744073709551616 := by norm_num
    have ih2 := ih (fun d hdm => hd d (List.mem_cons_of_mem _ hdm)) (n * 10 + (c.toNat - 48))
    unfold parseUintLoop decimalValue
    simp only [hc, Bool.true_eq_false, if_false]
    rw [hmax, hcut, h64] at *
    by_cases h1 : n ≥ 1844674407370955162
    · have hbig : ¬ decimalValue cs (n * 10 + (c.toNat - 48)) ≤ 18446744073709551615 := by
        omega
      simp only [h1, if_true, hbig, if_false]
    · simp only [h1, if_false]
      have hn10 : n * 10 % 18446744073709551616 = n * 10 := Nat.mod_eq_of_lt (by omega)
      rw [hn10]
      by_cases h2 : n * 10 + (c.toNat - 48) < 18446744073709551616
      · have hm : (n * 10 + (c.toNat - 48)) % 18446744073709551616
            = n * 10 + (c.toNat - 48) := Nat.mod_eq_of_lt h2
        rw [hm]
        have hno : ¬ (n * 10 + (c.toNat - 48) < n * 10 ∨
            n * 10 + (c.toNat - 48) > 18446744073709551615) := by omega
        simp only [hno, if_false]
        exact ih2 (by omega)
      · have hm : (n * 10 + (c.toNat - 48)) % 18446744073709551616
            = n * 10 + (c.toNat - 48) - 18446744073709551616 := by
          rw [Nat.mod_eq_sub_mod (by omega)]
          exact Nat.mod_eq_of_lt (by omega)
        rw [hm]
        have hyes : (n * 10 + (c.toNat - 48) - 18446744073709551616 < n * 10 ∨
            n * 10 + (c.toNat - 48) - 18446744073709551616 > 18446744073709551615) := by
          omega
        have hbig : ¬ decimalValue cs (n * 10 + (c.toNat - 48)) ≤ 18446744073709551615 := by
          omega
        simp only [hyes, if_true, hbig, if_false]

theorem isDigit_ne_sign (c : Char) (h : c.isDigit = true) : c ≠ '+' ∧ c ≠ '-' := by
  constructor <;> intro he <;> subst he <;> simp [Char.isDigit] at h

theorem ParseUint_digits (digits : List Char) (hne : digits ≠ [])
    (hd : ∀ c ∈ digits, c.isDigit = true) :
    ParseUint digits =
      if decimalValue digits 0 ≤ maxUint64 then (decimalValue digits 0, none)
      else (maxUint64, some NumError.outOfRange) := by
  cases digits with
  | nil => exact absurd rfl hne
  | cons c cs =>
    unfold ParseUint
    exact parseUintLoop_digits (c :: cs) hd 0 (Nat.zero_le _)

/-- `ParseInt` on an unsigned string of decimal digits: the denoted number
when it is below `2 ^ 63`, else a range error with the largest `int64`. -/
theorem ParseInt_digits (digits : List Char) (hne : digits ≠ [])
    (hd : ∀ c ∈ digits, c.isDigit = true) :
    ParseInt (String.mk digits) =
      if decimalValue digits 0 < 2 ^ 63 then ((decimalValue digits 0 : Int), none)
      else (2 ^ 63 - 1, some NumError.outOfRange) := by
  have hmax : maxUint64 = 18446744073709551615 := by norm_num [maxUint64]
  cases digits with
  | nil => exact absurd rfl hne
  | cons c cs =>
    have hs := isDigit_ne_sign c (hd c (List.mem_cons_self _ _))
    have hu := ParseUint_digits (c :: cs) hne hd
    unfold ParseInt
    simp only [hs.1, hs.2, or_self, if_false, decide_False]
    rw [hu, hmax]
    by_cases h1 : decimalValue (c :: cs) 0 ≤ 18446744073709551615
    · simp only [h1, if_true]
      by_cases h2 : decimalValue (c :: cs) 0 < 9223372036854775808
      · have h3 : ¬ 9223372036854775808 ≤ decimalValue (c :: cs) 0 := by omega
        simp [h2, h3]
      · have h3 : 9223372036854775808 ≤ decimalValue (c :: cs) 0 := by omega
        simp [h2, h3]
    · have h2 : ¬ decimalValue (c :: cs) 0 < 9223372036854775808 := by omega
      simp [h1, h2]

/-- `ParseInt` on a minus sign followed by decimal digits: the negated number
when it is at most `2 ^ 63`, else a range error with the smallest `int64`. -/
theorem ParseInt_minus_digits (digits : List Char) (hne : digits ≠ [])
    (hd : ∀ c ∈ digits, c.isDigit = true) :
    ParseInt (String.mk ('-' :: digits)) =
      if decimalValue digits 0 ≤ 2 ^ 63 then (-(decimalValue digits 0 : Int), none)
      else (-(2 ^ 63), some NumError.outOfRange) := by
  have hmax : maxUint64 = 18446744073709551615 := by norm_num [maxUint64]
  have hu := ParseUint_digits digits hne hd
  unfold ParseInt
  simp only [or_true, if_true, decide_True]
  rw [hu, hmax]
  by_cases h1 : decimalValue digits 0 ≤ 18446744073709551615
  · simp only [h1, if_true]
    by_cases h2 : decimalValue digits 0 ≤ 9223372036854775808
    · have h3 : ¬ 9223372036854775808 < decimalValue digits 0 := by omega
      simp [h2, h3]
    · have h3 : 9223372036854775808 < decimalValue digits 0 := by omega
      simp [h2, h3]
  · have h2 : ¬ decimalValue digits 0 ≤ 9223372036854775808 := by omega
    simp [h1, h2]

theorem ParseInt_range_value (s : String) (h : (ParseInt s).2 = some NumError.outOfRange) :
    (ParseInt s).1 = 2 ^ 63 - 1 ∨ (ParseInt s).1 = -(2 ^ 63) := by
  unfold ParseInt at h ⊢
  cases hd : s.data with
  | nil => simp [hd] at h
  | cons c cs =>
    simp only [hd] at h ⊢
    split_ifs at h ⊢ <;> simp at h ⊢

theorem ParseBool_malformed_value (s : String) (h : (ParseBool s).2 = some NumError.malformed) :
    (ParseBool s).1 = false := by
  unfold ParseBool at h ⊢
  split_ifs at h ⊢
  simp at h ⊢

theorem ParseBool_malformed_iff (s : String) :
    (ParseBool s).2 = some NumError.malformed ↔
      ¬ (s = "1" ∨ s = "t" ∨ s = "T" ∨ s = "TRUE" ∨ s = "true" ∨ s = "True" ∨
        s = "0" ∨ s = "f" ∨ s = "F" ∨ s = "FALSE" ∨ s = "false" ∨ s = "False") := by
  unfold ParseBool
  split_ifs with h1 h2
  · simp only [reduceCtorEq, false_iff, not_not]
    rcases h1 with h | h | h | h | h | h <;> simp [h]
  · simp only [reduceCtorEq, false_iff, not_not]
    rcases h2 with h | h | h | h | h | h <;> simp [h]
  · simp only [true_iff]
    intro h
    rcases h with h | h | h | h | h | h | h | h | h | h | h | h
    all_goals (subst h; simp at h1 h2)

/-! ## Priority of the environment in the keyper overlay -/

/-- C1 (counterexample): with `SHUTTER_ENABLED=false` in the environment and a
template whose `Enabled` entry is `true`, `applyKeyperConfig` returns a mapping
whose `Enabled` entry is still `true`, not the coerced environment value
`false`. -/
theorem env_false_leaves_template_entry :
    Getenv (envOf [("SHUTTER_ENABLED", "false")]) "SHUTTER_ENABLED" = "false" ∧
    parseEnvValue "false" Kind.bool = Value.bool false ∧
    fullTemplate "Enabled" = some (Value.bool true) ∧
    valueAt (applyKeyperConfig (envOf [("SHUTTER_ENABLED", "false")]) fullTemplate {})
      "Enabled" = some (some (Value.bool true)) := by
  decide

/-- C1 (amended): for a field of the keyper schema whose environment variable
is a non-empty string `s`, the loop iteration of that field always returns;
in the mapping returned by `applyKeyperConfig` the entry at the field's key is
`s` coerced by `parseEnvValue` when that coerced value is not the zero value of
its type, whatever the config record and the template hold, and it is the
template's entry when the coerced value is zero (integer 0, boolean false).
For string and list fields the coerced value is never zero. -/
theorem applyKeyperConfig_env_priority (env : Env) (tmpl : ConfigMap) (cfg : KeyperConfig)
    (f : StructField) (hf : f ∈ keyperFields) (hs : Getenv env f.Tag ≠ "") :
    (∀ m, (resolveField env cfg m f).isSome = true) ∧
    (f.Kind = Kind.string ∨ f.Kind = Kind.slice →
      isZeroValue (parseEnvValue (Getenv env f.Tag) f.Kind) = some false) ∧
    (∀ m', applyKeyperConfig env tmpl cfg = some m' →
      m' f.Name =
        if isZeroValue (parseEnvValue (Getenv env f.Tag) f.Kind) = some false then
          some (parseEnvValue (Getenv env f.Tag) f.Kind)
        else tmpl f.Name) := by
  refine ⟨?_, ?_, ?_⟩
  · intro m
    rw [resolveField_isSome_iff]
    exact Or.inl hs
  · intro hk
    rcases hk with hk | hk
    · simp [hk, parseEnvValue, isZeroValue, hs]
    · simp [hk, parseEnvValue, isZeroValue]
  · intro m' h
    rw [applyKeyperConfig_at h f hf]
    simp [resolved, hs]

/-- C1 (witness): `_ASSETS_INSTANCE_ID=7` over a template entry 1 and a config
value 5 gives the `int64` 7. -/
theorem applyKeyperConfig_env_priority_witness :
    Getenv (envOf [("_ASSETS_INSTANCE_ID", "7")]) "_ASSETS_INSTANCE_ID" ≠ "" ∧
    (Option.getD (applyKeyperConfig (envOf [("_ASSETS_INSTANCE_ID", "7")]) fullTemplate
      { InstanceID := 5 }) emptyMap) "InstanceID" = some (Value.int64 7) :=
  ⟨by decide,
    ((applyKeyperConfig_env_priority (envOf [("_ASSETS_INSTANCE_ID", "7")]) fullTemplate
      { InstanceID := 5 } keyperFields[0] (List.getElem_mem _) (by decide)).2.2 _ rfl).trans
      (by decide)⟩

/-! ## Config values without environment variables -/

/-- C2 (failing input): for the template `{InstanceID: 1, Enabled: false}`, the
config `{InstanceID: 5}` and an empty environment, `applyKeyperConfig` does
not return: the first iteration writes 5, the second one reads the missing key
`MaxNumKeysPerMessage`, gets nil, and `isZeroValue` panics on it. -/
theorem scenario1_panics :
    valueAt (resolveField emptyEnv { InstanceID := 5 }
      (mapOf [("InstanceID", Value.int64 1), ("Enabled", Value.bool false)]) keyperFields[0])
      "InstanceID" = some (some (Value.int 5)) ∧
    index (assign (mapOf [("InstanceID", Value.int64 1), ("Enabled", Value.bool false)])
      "InstanceID" (Value.int 5)) "MaxNumKeysPerMessage" = Value.nil ∧
    isZeroValue Value.nil = none ∧
    applyKeyperConfig emptyEnv
      (mapOf [("InstanceID", Value.int64 1), ("Enabled", Value.bool false)])
      { InstanceID := 5 } = none :=
  ⟨by decide, by decide, rfl, rfl⟩

/-! ## Fields that nothing overrides -/

/-- Frame of `applyChainConfig`: a field whose config value is empty keeps its
template entry. -/
theorem applyChainConfig_zero_frame (tmpl : ConfigMap) (cfg : ChainConfig) :
    (cfg.PrivateKey = "" → applyChainConfig tmpl cfg "PrivateKey" = tmpl "PrivateKey") ∧
    (cfg.InstanceID = "" → applyChainConfig tmpl cfg "InstanceID" = tmpl "InstanceID") := by
  constructor
  · intro h
    by_cases h2 : cfg.InstanceID = "" <;> simp [applyChainConfig, h, h2, assign]
  · intro h
    by_cases h2 : cfg.PrivateKey = "" <;> simp [applyChainConfig, h, h2, assign]

/-- Frame of one keyper iteration when the template has a non-nil entry: with
the variable unset or empty and a zero config value the mapping is unchanged. -/
theorem resolveField_fallback_present (env : Env) (cfg : KeyperConfig) (m : ConfigMap)
    (f : StructField) (he : Getenv env f.Tag = "")
    (hz : isZeroValue (f.Interface cfg) = some true) (hm : index m f.Name ≠ Value.nil) :
    resolveField env cfg m f = some m := by
  unfold resolveField
  simp only [he, ne_eq, not_true_eq_false, if_false, hz]
  exact setTemplateField_index_self m f.Name hm

/-- C3 (failing input): the keyper field `InstanceID` with its variable unset,
a zero config value and a template without the key `InstanceID`: the iteration
of that field does not return, and neither does `applyKeyperConfig`, instead of
leaving the key absent. -/
theorem absent_key_fallback_panics :
    Getenv emptyEnv "_ASSETS_INSTANCE_ID" = "" ∧
    isZeroValue (Value.int ({} : KeyperConfig).InstanceID) = some true ∧
    mapOf [("Enabled", Value.bool true)] "InstanceID" = none ∧
    resolveField emptyEnv {} (mapOf [("Enabled", Value.bool true)]) keyperFields[0] = none ∧
    applyKeyperConfig emptyEnv (mapOf [("Enabled", Value.bool true)]) {} = none :=
  ⟨by decide, by decide, by decide, rfl, rfl⟩

/-! ## Priority in the chain overlay -/

/-- C4: in the chain overlay the entry at `PrivateKey` is the value of
`PRIVATE_KEY` if that is non-empty, otherwise the config's `PrivateKey` if that
is non-empty, otherwise the template's entry; likewise for `InstanceID` with
`INSTANCE_ID`; and the template `{PrivateKey: "default"}` with an empty config
value and `PRIVATE_KEY=abc123` gives `{PrivateKey: "abc123"}`. -/
theorem chainOverlay_priority (env : Env) (tmpl : ConfigMap) (cfg : ChainConfig) :
    chainOverlay env tmpl cfg "PrivateKey" =
      (if Getenv env "PRIVATE_KEY" ≠ "" then some (Value.str (Getenv env "PRIVATE_KEY"))
        else if cfg.PrivateKey ≠ "" then some (Value.str cfg.PrivateKey)
        else tmpl "PrivateKey") ∧
    chainOverlay env tmpl cfg "InstanceID" =
      (if Getenv env "INSTANCE_ID" ≠ "" then some (Value.str (Getenv env "INSTANCE_ID"))
        else if cfg.InstanceID ≠ "" then some (Value.str cfg.InstanceID)
        else tmpl "InstanceID") ∧
    chainOverlay (envOf [("PRIVATE_KEY", "abc123")]) (mapOf [("PrivateKey", Value.str "default")])
      { PrivateKey := "" } = mapOf [("PrivateKey", Value.str "abc123")] := by
  have hne : ("InstanceID" : String) ≠ "PrivateKey" := by decide
  have hne2 : ("PrivateKey" : String) ≠ "InstanceID" := by decide
  refine ⟨?_, ?_, ?_⟩
  · unfold chainOverlay applyEnvOverrides applyChainConfig
    by_cases h1 : Getenv env "PRIVATE_KEY" = "" <;> by_cases h2 : Getenv env "INSTANCE_ID" = ""
      <;> by_cases h3 : cfg.PrivateKey = "" <;> by_cases h4 : cfg.InstanceID = ""
      <;> simp [h1, h2, h3, h4, assign, hne, hne2]
  · unfold chainOverlay applyEnvOverrides applyChainConfig
    by_cases h1 : Getenv env "PRIVATE_KEY" = "" <;> by_cases h2 : Getenv env "INSTANCE_ID" = ""
      <;> by_cases h3 : cfg.PrivateKey = "" <;> by_cases h4 : cfg.InstanceID = ""
      <;> simp [h1, h2, h3, h4, assign, hne, hne2]
  · have e1 : Getenv (envOf [("PRIVATE_KEY", "abc123")]) "PRIVATE_KEY" = "abc123" := by decide
    have e2 : Getenv (envOf [("PRIVATE_KEY", "abc123")]) "INSTANCE_ID" = "" := by decide
    funext j
    unfold chainOverlay applyEnvOverrides applyChainConfig
    simp only [e1, e2]
    by_cases hj : j = "PrivateKey" <;> simp [mapOf, assign, hj]

/-! ## Integer fields with a malformed environment value -/

/-- C5 (counterexample): `_ASSETS_INSTANCE_ID=abc` is not a base-10 integer
(`ParseInt` reports a syntax error), the config holds `InstanceID = 5` and the
template 1.  With the variable set the result keeps the template's 1; with the
variable unset the result holds the config's 5. -/
theorem malformed_int_env_differs_from_unset :
    ParseInt "abc" = (0, some NumError.malformed) ∧
    valueAt (applyKeyperConfig (envOf [("_ASSETS_INSTANCE_ID", "abc")]) fullTemplate
      { InstanceID := 5 }) "InstanceID" = some (some (Value.int64 1)) ∧
    valueAt (applyKeyperConfig (unsetenv (envOf [("_ASSETS_INSTANCE_ID", "abc")])
      "_ASSETS_INSTANCE_ID") fullTemplate { InstanceID := 5 }) "InstanceID"
      = some (some (Value.int 5)) := by
  decide

/-- C5 (amended): for an integer field of the keyper schema whose environment
variable is a non-empty string on which the integer parse reports a syntax
error, the iteration of that field leaves every mapping unchanged (the config
value is not applied), and for a template with a non-nil entry at the field's
key `applyKeyperConfig` gives the result it gives when the variable is unset
and the config value of that field is zero. -/
theorem applyKeyperConfig_malformed_int_env (env : Env) (tmpl : ConfigMap)
    (cfg cfg0 : KeyperConfig) (f : StructField) (hf : f ∈ keyperFields)
    (hk : f.Kind = Kind.int) (hs : Getenv env f.Tag ≠ "")
    (hbad : (ParseInt (Getenv env f.Tag)).2 = some NumError.malformed)
    (hzero : isZeroValue (f.Interface cfg0) = some true)
    (hsame : ∀ g ∈ keyperFields, g.Name ≠ f.Name → g.Interface cfg0 = g.Interface cfg) :
    (∀ m, resolveField env cfg m f = some m) ∧
    (index tmpl f.Name ≠ Value.nil →
      applyKeyperConfig env tmpl cfg = applyKeyperConfig (unsetenv env f.Tag) tmpl cfg0) := by
  have hparse : isZeroValue (parseEnvValue (Getenv env f.Tag) f.Kind) = some true := by
    simp [hk, parseEnvValue, isZeroValue, ParseInt_malformed_value _ hbad]
  refine ⟨?_, ?_⟩
  · intro m
    unfold resolveField
    simp only [ne_eq, hs, not_false_eq_true, if_true]
    simp [setTemplateField, hparse]
  · intro hpresent
    have hold := (index_ne_nil_iff tmpl f.Name).1 hpresent
    unfold applyKeyperConfig
    refine applyFields_ext tmpl keyperFields_names_nodup keyperFields_names_nodup
      (fun _ => Iff.rfl) ?_ ?_
    · intro g hg
      by_cases hgf : g.Name = f.Name
      · have hgeq : g = f :=
          List.inj_on_of_nodup_map keyperFields_names_nodup hg hf hgf
        subst hgeq
        unfold returns
        simp [hs, Getenv_unsetenv_self, hzero, hold.1, hold.2]
      · unfold returns
        rw [Getenv_unsetenv_other env f.Tag g.Tag (keyperFields_tag_ne hf hg hgf),
          hsame g hg hgf]
    · intro g hg
      by_cases hgf : g.Name = f.Name
      · have hgeq : g = f :=
          List.inj_on_of_nodup_map keyperFields_names_nodup hg hf hgf
        subst hgeq
        unfold resolved
        simp [hs, Getenv_unsetenv_self, hzero, hparse]
      · unfold resolved
        rw [Getenv_unsetenv_other env f.Tag g.Tag (keyperFields_tag_ne hf hg hgf),
          hsame g hg hgf]

/-- C5 (witness): `_ASSETS_INSTANCE_ID=abc` over the full template, with the
config `{InstanceID: 5}` and its zeroed counterpart. -/
theorem applyKeyperConfig_malformed_int_env_witness :
    Getenv (envOf [("_ASSETS_INSTANCE_ID", "abc")]) "_ASSETS_INSTANCE_ID" ≠ "" ∧
    (ParseInt (Getenv (envOf [("_ASSETS_INSTANCE_ID", "abc")]) "_ASSETS_INSTANCE_ID")).2
      = some NumError.malformed ∧
    index fullTemplate "InstanceID" ≠ Value.nil ∧
    resolveField (envOf [("_ASSETS_INSTANCE_ID", "abc")]) { InstanceID := 5 } fullTemplate
      keyperFields[0] = some fullTemplate ∧
    applyKeyperConfig (envOf [("_ASSETS_INSTANCE_ID", "abc")]) fullTemplate { InstanceID := 5 }
      = applyKeyperConfig (unsetenv (envOf [("_ASSETS_INSTANCE_ID", "abc")])
          "_ASSETS_INSTANCE_ID") fullTemplate {} := by
  have hsame : ∀ g ∈ keyperFields, g.Name ≠ (keyperFields[0]).Name →
      g.Interface ({} : KeyperConfig) = g.Interface ({ InstanceID := 5 } : KeyperConfig) := by
    intro g hg hne
    simp only [keyperFields, List.mem_cons, List.mem_singleton, List.not_mem_nil,
      or_false] at hg
    rcases hg with h | h | h | h | h | h | h | h | h | h | h | h | h | h | h | h | h | h | h |
      h | h | h | h | h <;> subst h <;> first | rfl | exact absurd rfl hne
  have h := applyKeyperConfig_malformed_int_env (envOf [("_ASSETS_INSTANCE_ID", "abc")])
    fullTemplate { InstanceID := 5 } {} keyperFields[0] (List.getElem_mem _) rfl
    (by decide) (by decide) (by decide) hsame
  exact ⟨by decide, by decide, by decide, h.1 fullTemplate, h.2 (by decide)⟩

/-! ## The list field -/

/-- C6 (failing input): `_ASSETS_CUSTOM_BOOTSTRAP_ADDRESSES=addr1,addr2,addr3`,
no config value, and the template `{Enabled: false}`, which has no
`CustomBootstrapAddresses` key.  The first iteration (`InstanceID`: variable
unset, config 0, key absent) reads nil and panics, so `applyKeyperConfig`
returns no mapping and the key never holds the list `[addr1, addr2, addr3]`
that the split of the value gives. -/
theorem bootstrap_list_lost_by_panic :
    Getenv (envOf [("_ASSETS_CUSTOM_BOOTSTRAP_ADDRESSES", "addr1,addr2,addr3")])
      "_ASSETS_CUSTOM_BOOTSTRAP_ADDRESSES" = "addr1,addr2,addr3" ∧
    Split "addr1,addr2,addr3" = ["addr1", "addr2", "addr3"] ∧
    mapOf [("Enabled", Value.bool false)] "CustomBootstrapAddresses" = none ∧
    index (mapOf [("Enabled", Value.bool false)]) "InstanceID" = Value.nil ∧
    resolveField (envOf [("_ASSETS_CUSTOM_BOOTSTRAP_ADDRESSES", "addr1,addr2,addr3")]) {}
      (mapOf [("Enabled", Value.bool false)]) keyperFields[0] = none ∧
    applyKeyperConfig (envOf [("_ASSETS_CUSTOM_BOOTSTRAP_ADDRESSES", "addr1,addr2,addr3")])
      (mapOf [("Enabled", Value.bool false)]) {} = none :=
  ⟨by decide, by decide, by decide, by decide, rfl, rfl⟩

/-- What holds of the list field when the loop returns: when
`_ASSETS_CUSTOM_BOOTSTRAP_ADDRESSES` is a non-empty string `s`, the
iteration of the field `CustomBootstrapAddresses` returns for every mapping
and assigns the list `Split s` (also when the key was absent), and the mapping
returned by `applyKeyperConfig` holds that list at the key.  No element of
`Split s` contains a comma, joining the elements with a comma gives `s` back,
and `Split s` is the only non-empty list with these two properties; for
`addr1,addr2,addr3` it is `[addr1, addr2, addr3]`. -/
theorem applyKeyperConfig_bootstrap_addresses (env : Env) (tmpl : ConfigMap)
    (cfg : KeyperConfig) (hs : Getenv env "_ASSETS_CUSTOM_BOOTSTRAP_ADDRESSES" ≠ "") :
    (∀ m, resolveField env cfg m keyperFields[10] =
      some (assign m "CustomBootstrapAddresses"
        (Value.strSlice (some (Split (Getenv env "_ASSETS_CUSTOM_BOOTSTRAP_ADDRESSES")))))) ∧
    (∀ m', applyKeyperConfig env tmpl cfg = some m' →
      m' "CustomBootstrapAddresses" =
        some (Value.strSlice (some (Split (Getenv env "_ASSETS_CUSTOM_BOOTSTRAP_ADDRESSES"))))) ∧
    (∀ x ∈ Split (Getenv env "_ASSETS_CUSTOM_BOOTSTRAP_ADDRESSES"), ',' ∉ x.data) ∧
    Join (Split (Getenv env "_ASSETS_CUSTOM_BOOTSTRAP_ADDRESSES"))
      = Getenv env "_ASSETS_CUSTOM_BOOTSTRAP_ADDRESSES" ∧
    (∀ elems : List String, elems ≠ [] → (∀ x ∈ elems, ',' ∉ x.data) →
      Join elems = Getenv env "_ASSETS_CUSTOM_BOOTSTRAP_ADDRESSES" →
      elems = Split (Getenv env "_ASSETS_CUSTOM_BOOTSTRAP_ADDRESSES")) ∧
    Split "addr1,addr2,addr3" = ["addr1", "addr2", "addr3"] := by
  have htag : (keyperFields[10]).Tag = "_ASSETS_CUSTOM_BOOTSTRAP_ADDRESSES" := rfl
  have hname : (keyperFields[10]).Name = "CustomBootstrapAddresses" := rfl
  have hkind : (keyperFields[10]).Kind = Kind.slice := rfl
  refine ⟨?_, ?_, Split_sep_free _, Join_Split _, ?_, by decide⟩
  · intro m
    unfold resolveField
    rw [htag, hname, hkind]
    simp [hs, parseEnvValue, setTemplateField, isZeroValue]
  · intro m' h
    have hat := applyKeyperConfig_at h keyperFields[10] (List.getElem_mem _)
    rw [hname] at hat
    rw [hat]
    unfold resolved
    rw [htag, hkind]
    simp [hs, parseEnvValue, isZeroValue]
  · intro elems hne hfree hjoin
    rw [← hjoin, Split_Join elems hne hfree]

/-- An instance of the previous theorem: `addr1,addr2,addr3`, no config
value, and a template that lacks only the key of the list field. -/
theorem applyKeyperConfig_bootstrap_addresses_witness :
    templateWithoutBootstrap "CustomBootstrapAddresses" = none ∧
    Getenv (envOf [("_ASSETS_CUSTOM_BOOTSTRAP_ADDRESSES", "addr1,addr2,addr3")])
      "_ASSETS_CUSTOM_BOOTSTRAP_ADDRESSES" ≠ "" ∧
    (Option.getD (applyKeyperConfig
      (envOf [("_ASSETS_CUSTOM_BOOTSTRAP_ADDRESSES", "addr1,addr2,addr3")])
      templateWithoutBootstrap {}) emptyMap) "CustomBootstrapAddresses"
      = some (Value.strSlice (some ["addr1", "addr2", "addr3"])) :=
  ⟨by decide, by decide,
    ((applyKeyperConfig_bootstrap_addresses
      (envOf [("_ASSETS_CUSTOM_BOOTSTRAP_ADDRESSES", "addr1,addr2,addr3")])
      templateWithoutBootstrap {} (by decide)).2.1 _ rfl).trans (by decide)⟩

/-! ## Zero values and `setTemplateField` -/

/-- C7 (counterexample): the allocated list without elements is not a zero
value for `isZeroValue`, and `setTemplateField` writes it. -/
theorem empty_allocated_list_is_written :
    isZeroValue (Value.strSlice (some [])) = some false ∧
    emptyMap "CustomBootstrapAddresses" = none ∧
    valueAt (setTemplateField emptyMap "CustomBootstrapAddresses" (Value.strSlice (some [])))
      "CustomBootstrapAddresses" = some (some (Value.strSlice (some []))) := by
  decide

/-- C7 (amended): for every mapping `m`, key `k` and non-nil value `v`,
`isZeroValue` returns, and it returns true exactly on the empty string, the
integer 0, the boolean false and the nil list (an allocated list without
elements is not zero); `setTemplateField` assigns `m[k] = v` when `v` is not
zero and returns `m` itself when `v` is zero; every key other than `k` is
unchanged. -/
theorem setTemplateField_spec (m : ConfigMap) (k : String) (v : Value) (hv : v ≠ Value.nil) :
    (isZeroValue v = some true ∨ isZeroValue v = some false) ∧
    (isZeroValue v = some true ↔
      (v = Value.str "" ∨ v = Value.int 0 ∨ v = Value.int64 0 ∨ v = Value.bool false ∨
        v = Value.strSlice none ∨ v = Value.ifaceSlice none)) ∧
    (isZeroValue v = some false → setTemplateField m k v = some (assign m k v)) ∧
    (isZeroValue v = some true → setTemplateField m k v = some m) ∧
    (∀ m', setTemplateField m k v = some m' → ∀ j, j ≠ k → m' j = m j) := by
  refine ⟨?_, ?_, ?_, ?_, ?_⟩
  · cases hz : isZeroValue v with
    | none => exact absurd ((isZeroValue_eq_none_iff v).1 hz) hv
    | some b => cases b <;> simp
  · cases v with
    | nil => exact absurd rfl hv
    | str s => simp [isZeroValue]
    | int n => simp [isZeroValue]
    | int64 n => simp [isZeroValue]
    | bool b => cases b <;> simp [isZeroValue]
    | strSlice xs => cases xs <;> simp [isZeroValue]
    | ifaceSlice xs => cases xs <;> simp [isZeroValue]
  · intro hz
    simp [setTemplateField, hz]
  · intro hz
    simp [setTemplateField, hz]
  · intro m' h j hj
    exact setTemplateField_frame h j hj

/-- C7 (witness): the integer 5 is written at an absent key and the other
keys keep their entries. -/
theorem setTemplateField_spec_witness :
    Value.int 5 ≠ Value.nil ∧
    isZeroValue (Value.int 5) = some false ∧
    setTemplateField fullTemplate "Extra" (Value.int 5)
      = some (assign fullTemplate "Extra" (Value.int 5)) ∧
    assign fullTemplate "Extra" (Value.int 5) "LogLevel" = fullTemplate "LogLevel" :=
  ⟨by decide, by decide,
    (setTemplateField_spec fullTemplate "Extra" (Value.int 5) (by decide)).2.2.1 (by decide),
    (setTemplateField_spec fullTemplate "Extra" (Value.int 5) (by decide)).2.2.2.2 _ rfl
      "LogLevel" (by decide)⟩

/-! ## The coarse environment overlay -/

theorem applyEnvOverrides_frame (env : Env) (m : ConfigMap) (k : String)
    (h1 : k ≠ "PrivateKey") (h2 : k ≠ "InstanceID") : applyEnvOverrides env m k = m k := by
  unfold applyEnvOverrides
  by_cases e1 : Getenv env "PRIVATE_KEY" = "" <;> by_cases e2 : Getenv env "INSTANCE_ID" = ""
    <;> simp [e1, e2, assign, h1, h2]

/-- C8 (counterexample): on a mapping without the key `PrivateKey`, the coarse
overlay with `PRIVATE_KEY=abc123` adds the key. -/
theorem applyEnvOverrides_adds_absent_key :
    emptyMap "PrivateKey" = none ∧
    applyEnvOverrides (envOf [("PRIVATE_KEY", "abc123")]) emptyMap "PrivateKey"
      = some (Value.str "abc123") := by
  decide

/-- C8 (amended): `applyEnvOverrides` changes no key other than `PrivateKey`
and `InstanceID`; the entry at `PrivateKey` becomes the value of `PRIVATE_KEY`
when that is non-empty, whether or not the key was present, and is unchanged
otherwise; likewise for `InstanceID` and `INSTANCE_ID`. -/
theorem applyEnvOverrides_spec (env : Env) (m : ConfigMap) :
    (∀ k, k ≠ "PrivateKey" → k ≠ "InstanceID" → applyEnvOverrides env m k = m k) ∧
    applyEnvOverrides env m "PrivateKey" =
      (if Getenv env "PRIVATE_KEY" ≠ "" then some (Value.str (Getenv env "PRIVATE_KEY"))
        else m "PrivateKey") ∧
    applyEnvOverrides env m "InstanceID" =
      (if Getenv env "INSTANCE_ID" ≠ "" then some (Value.str (Getenv env "INSTANCE_ID"))
        else m "InstanceID") := by
  have hne : ("InstanceID" : String) ≠ "PrivateKey" := by decide
  have hne2 : ("PrivateKey" : String) ≠ "InstanceID" := by decide
  refine ⟨?_, ?_, ?_⟩
  · intro k h1 h2
    exact applyEnvOverrides_frame env m k h1 h2
  · unfold applyEnvOverrides
    by_cases e1 : Getenv env "PRIVATE_KEY" = "" <;> by_cases e2 : Getenv env "INSTANCE_ID" = ""
      <;> simp [e1, e2, assign, hne, hne2]
  · unfold applyEnvOverrides
    by_cases e1 : Getenv env "PRIVATE_KEY" = "" <;> by_cases e2 : Getenv env "INSTANCE_ID" = ""
      <;> simp [e1, e2, assign, hne, hne2]

/-- C8 (witness): with `PRIVATE_KEY` and `INSTANCE_ID` both set, the key
`LogLevel` of the full template keeps its entry. -/
theorem applyEnvOverrides_spec_witness :
    applyEnvOverrides (envOf [("PRIVATE_KEY", "abc123"), ("INSTANCE_ID", "9")]) fullTemplate
      "LogLevel" = fullTemplate "LogLevel" :=
  (applyEnvOverrides_spec (envOf [("PRIVATE_KEY", "abc123"), ("INSTANCE_ID", "9")])
    fullTemplate).1 "LogLevel" (by decide) (by decide)

/-! ## Order of the fields -/

/-- C9: running the loop of `applyKeyperConfig` over any permutation of the
schema's fields gives the same result as the declared order (the same mapping,
or a panic in both). -/
theorem applyFields_perm (env : Env) (tmpl : ConfigMap) (cfg : KeyperConfig)
    (p : List StructField) (hp : p.Perm keyperFields) :
    applyFields env cfg p tmpl = applyKeyperConfig env tmpl cfg := by
  unfold applyKeyperConfig
  have hnd : (p.map StructField.Name).Nodup :=
    ((hp.map StructField.Name).nodup_iff).2 keyperFields_names_nodup
  exact applyFields_ext tmpl hnd keyperFields_names_nodup (fun _ => hp.mem_iff)
    (fun _ _ => Iff.rfl) (fun _ _ => rfl)

/-- C9 (witness): the reversed order of the fields, on the full template with
`SHUTTER_ENABLED=false` and the config `{InstanceID: 5}`. -/
theorem applyFields_perm_witness :
    keyperFields.reverse.Perm keyperFields ∧
    applyFields (envOf [("SHUTTER_ENABLED", "false")]) { InstanceID := 5 } keyperFields.reverse
      fullTemplate
      = applyKeyperConfig (envOf [("SHUTTER_ENABLED", "false")]) fullTemplate
          { InstanceID := 5 } :=
  ⟨List.reverse_perm keyperFields,
    applyFields_perm (envOf [("SHUTTER_ENABLED", "false")]) fullTemplate { InstanceID := 5 }
      keyperFields.reverse (List.reverse_perm keyperFields)⟩

/-! ## Keys of the template in the overlay's result -/

theorem resolved_ne_none (env : Env) (c : KeyperConfig) (f : StructField) (old : Option Value)
    (h : old ≠ none) : resolved env c f old ≠ none := by
  unfold resolved
  split_ifs <;> simp [h]

theorem applyEnvOverrides_ne_none (env : Env) (m : ConfigMap) (k : String) (h : m k ≠ none) :
    applyEnvOverrides env m k ≠ none := by
  unfold applyEnvOverrides
  by_cases e1 : Getenv env "PRIVATE_KEY" = "" <;> by_cases e2 : Getenv env "INSTANCE_ID" = ""
    <;> simp only [e1, e2, ne_eq, not_true_eq_false, not_false_eq_true, if_true, if_false, assign]
    <;> (try split_ifs) <;> simp [h]

theorem applyChainConfig_ne_none (m : ConfigMap) (c : ChainConfig) (k : String)
    (h : m k ≠ none) : applyChainConfig m c k ≠ none := by
  unfold applyChainConfig
  by_cases e1 : c.PrivateKey = "" <;> by_cases e2 : c.InstanceID = ""
    <;> simp only [e1, e2, ne_eq, not_true_eq_false, not_false_eq_true, if_true, if_false, assign]
    <;> (try split_ifs) <;> simp [h]

theorem applyChainConfig_frame (m : ConfigMap) (c : ChainConfig) (k : String)
    (h1 : k ≠ "PrivateKey") (h2 : k ≠ "InstanceID") : applyChainConfig m c k = m k := by
  unfold applyChainConfig
  by_cases e1 : c.PrivateKey = "" <;> by_cases e2 : c.InstanceID = ""
    <;> simp [e1, e2, assign, h1, h2]

/-- C10: the mapping that either overlay hands to the serializer contains
every key of the template, and every key that is neither a field name of the
overlay's schema nor `PrivateKey` or `InstanceID` has its template entry. -/
theorem overlay_preserves_template (env : Env) (tmpl : ConfigMap) :
    (∀ (cfg : KeyperConfig) (out : ConfigMap), keyperOverlay env tmpl cfg = some out →
      (∀ k, tmpl k ≠ none → out k ≠ none) ∧
      (∀ k, k ∉ keyperFields.map StructField.Name → k ≠ "PrivateKey" → k ≠ "InstanceID" →
        out k = tmpl k)) ∧
    (∀ cfg : ChainConfig,
      (∀ k, tmpl k ≠ none → chainOverlay env tmpl cfg k ≠ none) ∧
      (∀ k, k ≠ "PrivateKey" → k ≠ "InstanceID" → chainOverlay env tmpl cfg k = tmpl k)) := by
  constructor
  · intro cfg out hout
    unfold keyperOverlay at hout
    cases hm : applyKeyperConfig env tmpl cfg with
    | none => simp [hm] at hout
    | some m' =>
      simp only [hm, Option.map_some', Option.some.injEq] at hout
      subst hout
      constructor
      · intro k hk
        apply applyEnvOverrides_ne_none
        by_cases hmem : k ∈ keyperFields.map StructField.Name
        · obtain ⟨f, hf, rfl⟩ := List.mem_map.1 hmem
          rw [applyKeyperConfig_at hm f hf]
          exact resolved_ne_none env cfg f _ hk
        · rw [applyKeyperConfig_frame hm k hmem]
          exact hk
      · intro k hmem h1 h2
        rw [applyEnvOverrides_frame env m' k h1 h2, applyKeyperConfig_frame hm k hmem]
  · intro cfg
    constructor
    · intro k hk
      exact applyEnvOverrides_ne_none env _ k (applyChainConfig_ne_none tmpl cfg k hk)
    · intro k h1 h2
      unfold chainOverlay
      rw [applyEnvOverrides_frame env _ k h1 h2, applyChainConfig_frame tmpl cfg k h1 h2]

/-- C10 (witness): the keyper overlay of the full template with
`INSTANCE_ID=9`, `SHUTTER_ENABLED=false` and the config `{InstanceID: 5}` keeps
the key `Enabled` and leaves `LogLevel` as it is. -/
theorem overlay_preserves_template_witness :
    fullTemplate "Enabled" ≠ none ∧
    "LogLevel" ∉ keyperFields.map StructField.Name ∧
    (Option.getD (keyperOverlay (envOf [("INSTANCE_ID", "9"), ("SHUTTER_ENABLED", "false")])
      fullTemplate { InstanceID := 5 }) emptyMap) "Enabled" ≠ none ∧
    (Option.getD (keyperOverlay (envOf [("INSTANCE_ID", "9"), ("SHUTTER_ENABLED", "false")])
      fullTemplate { InstanceID := 5 }) emptyMap) "LogLevel" = fullTemplate "LogLevel" :=
  ⟨by decide, by decide,
    ((overlay_preserves_template (envOf [("INSTANCE_ID", "9"), ("SHUTTER_ENABLED", "false")])
      fullTemplate).1 { InstanceID := 5 } _ rfl).1 "Enabled" (by decide),
    ((overlay_preserves_template (envOf [("INSTANCE_ID", "9"), ("SHUTTER_ENABLED", "false")])
      fullTemplate).1 { InstanceID := 5 } _ rfl).2 "LogLevel" (by decide) (by decide)
      (by decide)⟩

/-! ## The dispatcher -/

/-- C11: once the `.env` file is loaded, `main` ends with exit code 1 without
calling an assembler and without any `os.WriteFile` when no verb is given,
when the verb is neither `include-keyper-settings` nor
`include-chain-settings`, when the verb is `include-keyper-settings` and one of
`--template`, `--config`, `--output` is empty, or when the verb is
`include-chain-settings` and `--config` or `--output` is empty; in every other
case it calls the assembler of the verb, and only that one: its run is the run
of that call (the chain assembler receives `--config` as its template path). -/
theorem main_dispatch (lib : Libraries) (fs : FileSystem) (env loaded : Env)
    (t c o : String) (args : List String)
    (hload : lib.godotenvLoad fs env (Getenv env "ASSETS_DIR" ++ "/variables.env")
      = some loaded) :
    ((args = [] ∨
      (∃ verb rest, args = verb :: rest ∧
        ((verb ≠ "include-keyper-settings" ∧ verb ≠ "include-chain-settings") ∨
          (verb = "include-keyper-settings" ∧ (t = "" ∨ c = "" ∨ o = "")) ∨
          (verb = "include-chain-settings" ∧ (c = "" ∨ o = ""))))) →
      main lib fs env t c o args = ⟨none, [], ProcessEnd.exit 1⟩) ∧
    (∀ rest, t ≠ "" → c ≠ "" → o ≠ "" →
      main lib fs env t c o ("include-keyper-settings" :: rest)
        = finish (Call.keyper t c o) (AddSettingsToKeyper lib fs loaded t c o)) ∧
    (∀ rest, c ≠ "" → o ≠ "" →
      main lib fs env t c o ("include-chain-settings" :: rest)
        = finish (Call.chain c o) (AddSettingsToChain lib fs loaded c o)) ∧
    (∀ call r, (finish call r).call = some call ∧ (finish call r).writes = r.writes) := by
  have hne : ("include-chain-settings" : String) ≠ "include-keyper-settings" := by decide
  refine ⟨?_, ?_, ?_, ?_⟩
  · intro h
    unfold main
    simp only [hload]
    rcases h with h | ⟨verb, rest, h, hv⟩
    · subst h; rfl
    · subst h
      rcases hv with ⟨h1, h2⟩ | ⟨h1, h2⟩ | ⟨h1, h2⟩
      · simp [h1, h2]
      · subst h1; simp [h2]
      · subst h1; simp [hne, h2]
  · intro rest ht hc ho
    unfold main
    simp [hload, ht, hc, ho]
  · intro rest hc ho
    unfold main
    simp [hload, hne, hc, ho]
  · intro call r
    unfold finish
    cases r.outcome <;> simp

/-- C11 (witness): `include-chain-settings` with `--config` omitted ends with
exit code 1, no assembler call and no write. -/
theorem main_dispatch_witness :
    lineLibraries.godotenvLoad (filesOf []) emptyEnv
      (Getenv emptyEnv "ASSETS_DIR" ++ "/variables.env") = some emptyEnv ∧
    main lineLibraries (filesOf []) emptyEnv "" "" "/out.toml" ["include-chain-settings"]
      = ⟨none, [], ProcessEnd.exit 1⟩ :=
  ⟨rfl,
    (main_dispatch lineLibraries (filesOf []) emptyEnv emptyEnv "" "" "/out.toml"
      ["include-chain-settings"] rfl).1
      (Or.inr ⟨"include-chain-settings", [], rfl, Or.inr (Or.inr ⟨rfl, Or.inl rfl⟩)⟩)⟩

/-! ## The files of the chain verb -/

theorem finish_writes (call : Call) (r : Run) : (finish call r).writes = r.writes := by
  unfold finish
  cases r.outcome <;> rfl

theorem AddSettingsToChain_of_inputs (lib : Libraries) (fs : FileSystem) (env : Env)
    (templateFilePath outputFilePath chainConfigFile templateFile data : String)
    (chainConfig : ChainConfig) (templateConfig : ConfigMap)
    (h1 : ReadFile fs (Getenv env "SHUTTER_CHAIN_CONFIG_FILE") = some chainConfigFile)
    (h2 : lib.unmarshalChain chainConfigFile = some chainConfig)
    (h3 : ReadFile fs templateFilePath = some templateFile)
    (h4 : lib.unmarshalMap templateFile = some templateConfig)
    (h5 : lib.marshal (chainOverlay env templateConfig chainConfig) = some data) :
    AddSettingsToChain lib fs env templateFilePath outputFilePath =
      if fs.writable outputFilePath then ⟨[(outputFilePath, data)], Outcome.ok⟩
      else ⟨[(outputFilePath, data)], Outcome.error Step.write⟩ := by
  have hstat : statIsNotExist fs (Getenv env "SHUTTER_CHAIN_CONFIG_FILE") = false := by
    unfold ReadFile at h1
    unfold statIsNotExist
    cases hf : fs.file (Getenv env "SHUTTER_CHAIN_CONFIG_FILE") with
    | none => simp [hf] at h1
    | some f => rfl
  unfold AddSettingsToChain
  simp only [hstat, h1, h2, h3, h4, h5, Bool.false_eq_true, if_false]

theorem AddSettingsToChain_writes (lib : Libraries) (fs : FileSystem) (env : Env)
    (templateFilePath outputFilePath : String) (p d : String)
    (h : (p, d) ∈ (AddSettingsToChain lib fs env templateFilePath outputFilePath).writes) :
    p = outputFilePath ∧
    ∃ chainConfigFile chainConfig templateFile templateConfig,
      ReadFile fs (Getenv env "SHUTTER_CHAIN_CONFIG_FILE") = some chainConfigFile ∧
      lib.unmarshalChain chainConfigFile = some chainConfig ∧
      ReadFile fs templateFilePath = some templateFile ∧
      lib.unmarshalMap templateFile = some templateConfig ∧
      lib.marshal (chainOverlay env templateConfig chainConfig) = some d := by
  unfold AddSettingsToChain at h
  by_cases hstat : statIsNotExist fs (Getenv env "SHUTTER_CHAIN_CONFIG_FILE") = true
  · simp [hstat] at h
  · simp only [hstat, Bool.false_eq_true, if_false] at h
    cases h1 : ReadFile fs (Getenv env "SHUTTER_CHAIN_CONFIG_FILE") with
    | none => simp [h1] at h
    | some chainConfigFile =>
      simp only [h1] at h
      cases h2 : lib.unmarshalChain chainConfigFile with
      | none => simp [h2] at h
      | some chainConfig =>
        simp only [h2] at h
        cases h3 : ReadFile fs templateFilePath with
        | none => simp [h3] at h
        | some templateFile =>
          simp only [h3] at h
          cases h4 : lib.unmarshalMap templateFile with
          | none => simp [h4] at h
          | some templateConfig =>
            simp only [h4] at h
            cases h5 : lib.marshal (chainOverlay env templateConfig chainConfig) with
            | none => simp [h5] at h
            | some data =>
              simp only [h5] at h
              have hpd : (p, d) = (outputFilePath, data) := by
                by_cases hw : fs.writable outputFilePath = true
                · simpa [hw] using h
                · simpa [hw] using h
              simp only [Prod.mk.injEq] at hpd
              refine ⟨hpd.1, chainConfigFile, chainConfig, templateFile, templateConfig,
                rfl, h2, rfl, h4, ?_⟩
              rw [hpd.2]
              exact h5

/-- C12 (counterexample): `SHUTTER_CHAIN_CONFIG_FILE` names a file with text
`A` and `--config` a file with text `B`.  The written data is `B/A`: the
mapping (first part) comes from the `--config` file and the chain config
(second part) from the file named by the environment.  Decoding the mapping
from the environment's file and the chain config from the `--config` file, as
the claim has it, would give `A/B`. -/
theorem chain_verb_template_is_config_flag :
    ReadFile (filesOf [("/chain.toml", "A"), ("/cfg.toml", "B")])
      (Getenv (envOf [("SHUTTER_CHAIN_CONFIG_FILE", "/chain.toml")])
        "SHUTTER_CHAIN_CONFIG_FILE") = some "A" ∧
    ReadFile (filesOf [("/chain.toml", "A"), ("/cfg.toml", "B")]) "/cfg.toml" = some "B" ∧
    main lineLibraries (filesOf [("/chain.toml", "A"), ("/cfg.toml", "B")])
      (envOf [("SHUTTER_CHAIN_CONFIG_FILE", "/chain.toml")]) "" "/cfg.toml" "/out.toml"
      ["include-chain-settings"]
      = ⟨some (Call.chain "/cfg.toml" "/out.toml"), [("/out.toml", "B/A")], ProcessEnd.exit 0⟩ ∧
    (lineLibraries.unmarshalMap "A").bind (fun m =>
      (lineLibraries.unmarshalChain "B").bind (fun chainConfig =>
        lineLibraries.marshal
          (chainOverlay (envOf [("SHUTTER_CHAIN_CONFIG_FILE", "/chain.toml")]) m chainConfig)))
      = some "A/B" := by
  decide

/-- C12 (amended): for the verb `include-chain-settings` with non-empty
`--config` and `--output`, the mapping that is overlaid and written to
`--output` is decoded from the file at the `--config` path, and the chain
config record is decoded from the file at the path in the environment variable
`SHUTTER_CHAIN_CONFIG_FILE`; `--template` plays no part. -/
theorem main_chain_sources (lib : Libraries) (fs : FileSystem) (env loaded : Env)
    (t c o : String) (rest : List String)
    (hload : lib.godotenvLoad fs env (Getenv env "ASSETS_DIR" ++ "/variables.env")
      = some loaded)
    (hc : c ≠ "") (ho : o ≠ "") :
    (∀ chainConfigFile chainConfig templateFile templateConfig data,
      ReadFile fs (Getenv loaded "SHUTTER_CHAIN_CONFIG_FILE") = some chainConfigFile →
      lib.unmarshalChain chainConfigFile = some chainConfig →
      ReadFile fs c = some templateFile →
      lib.unmarshalMap templateFile = some templateConfig →
      lib.marshal (chainOverlay loaded templateConfig chainConfig) = some data →
      (main lib fs env t c o ("include-chain-settings" :: rest)).writes = [(o, data)]) ∧
    (∀ p d, (p, d) ∈ (main lib fs env t c o ("include-chain-settings" :: rest)).writes →
      p = o ∧
      ∃ chainConfigFile chainConfig templateFile templateConfig,
        ReadFile fs (Getenv loaded "SHUTTER_CHAIN_CONFIG_FILE") = some chainConfigFile ∧
        lib.unmarshalChain chainConfigFile = some chainConfig ∧
        ReadFile fs c = some templateFile ∧
        lib.unmarshalMap templateFile = some templateConfig ∧
        lib.marshal (chainOverlay loaded templateConfig chainConfig) = some d) := by
  have hne : ("include-chain-settings" : String) ≠ "include-keyper-settings" := by decide
  have hmain : main lib fs env t c o ("include-chain-settings" :: rest)
      = finish (Call.chain c o) (AddSettingsToChain lib fs loaded c o) := by
    unfold main
    simp [hload, hne, hc, ho]
  rw [hmain, finish_writes]
  constructor
  · intro chainConfigFile chainConfig templateFile templateConfig data h1 h2 h3 h4 h5
    rw [AddSettingsToChain_of_inputs lib fs loaded c o chainConfigFile templateFile data
      chainConfig templateConfig h1 h2 h3 h4 h5]
    by_cases hw : fs.writable o = true <;> simp [hw]
  · intro p d h
    exact AddSettingsToChain_writes lib fs loaded c o p d h

/-- C12 (witness): the run of the counterexample, with `--template` set to a
path that does not exist. -/
theorem main_chain_sources_witness :
    (main lineLibraries (filesOf [("/chain.toml", "A"), ("/cfg.toml", "B")])
      (envOf [("SHUTTER_CHAIN_CONFIG_FILE", "/chain.toml")]) "/none.toml" "/cfg.toml"
      "/out.toml" ["include-chain-settings"]).writes = [("/out.toml", "B/A")] :=
  (main_chain_sources lineLibraries (filesOf [("/chain.toml", "A"), ("/cfg.toml", "B")])
    (envOf [("SHUTTER_CHAIN_CONFIG_FILE", "/chain.toml")])
    (envOf [("SHUTTER_CHAIN_CONFIG_FILE", "/chain.toml")]) "/none.toml" "/cfg.toml" "/out.toml"
    [] rfl (by decide) (by decide)).1 "A" { InstanceID := "A" } "B"
    (mapOf [("PrivateKey", Value.str "B")]) "B/A" (by decide) rfl (by decide) rfl (by decide)

/-! ## Coercion of malformed environment values -/

/-- C13 (counterexample): the digit string `9223372036854775808` denotes
`2 ^ 63`, which is out of the 64-bit range; `ParseInt` reports a range error
and `parseEnvValue` returns the largest `int64`, not 0. -/
theorem out_of_range_digits_not_zero :
    (∀ c ∈ "9223372036854775808".data, c.isDigit = true) ∧
    decimalValue "9223372036854775808".data 0 = 2 ^ 63 ∧
    ParseInt "9223372036854775808" = (9223372036854775807, some NumError.outOfRange) ∧
    parseEnvValue "9223372036854775808" Kind.int = Value.int64 9223372036854775807 ∧
    isZeroValue (parseEnvValue "9223372036854775808" Kind.int) = some false := by
  decide

/-- C13 (amended): for every string `s` and every kind, `parseEnvValue` returns
a value of the kind's shape, never nil and never an error.  When `ParseInt`
reports a syntax error the value is the integer 0, and when `s` is none of the
accepted boolean tokens the value is `false`.  When `ParseInt` reports a range
error the value is an `int64` bound instead of 0: a string of decimal digits
denoting `2 ^ 63` or more gives `2 ^ 63 - 1`, and a minus sign followed by
digits denoting more than `2 ^ 63` gives `-2 ^ 63`. -/
theorem parseEnvValue_malformed (s : String) :
    ((∃ n, parseEnvValue s Kind.int = Value.int64 n) ∧
      (∃ b, parseEnvValue s Kind.bool = Value.bool b) ∧
      (∃ xs, parseEnvValue s Kind.slice = Value.strSlice (some xs)) ∧
      parseEnvValue s Kind.string = Value.str s) ∧
    ((ParseInt s).2 = some NumError.malformed → parseEnvValue s Kind.int = Value.int64 0) ∧
    ((ParseInt s).2 = some NumError.outOfRange →
      parseEnvValue s Kind.int = Value.int64 (2 ^ 63 - 1) ∨
        parseEnvValue s Kind.int = Value.int64 (-(2 ^ 63))) ∧
    (¬ (s = "1" ∨ s = "t" ∨ s = "T" ∨ s = "TRUE" ∨ s = "true" ∨ s = "True" ∨
        s = "0" ∨ s = "f" ∨ s = "F" ∨ s = "FALSE" ∨ s = "false" ∨ s = "False") →
      parseEnvValue s Kind.bool = Value.bool false) ∧
    (∀ digits : List Char, digits ≠ [] → (∀ c ∈ digits, c.isDigit = true) →
      (2 ^ 63 ≤ decimalValue digits 0 →
        parseEnvValue (String.mk digits) Kind.int = Value.int64 (2 ^ 63 - 1)) ∧
      (2 ^ 63 < decimalValue digits 0 →
        parseEnvValue (String.mk ('-' :: digits)) Kind.int = Value.int64 (-(2 ^ 63)))) := by
  refine ⟨⟨⟨_, rfl⟩, ⟨_, rfl⟩, ⟨_, rfl⟩, rfl⟩, ?_, ?_, ?_, ?_⟩
  · intro h
    simp [parseEnvValue, ParseInt_malformed_value s h]
  · intro h
    rcases ParseInt_range_value s h with h1 | h1
    · left; simp [parseEnvValue, h1]
    · right; simp [parseEnvValue, h1]
  · intro h
    simp [parseEnvValue, ParseBool_malformed_value s ((ParseBool_malformed_iff s).2 h)]
  · intro digits hne hd
    constructor
    · intro hbig
      have hnot : ¬ decimalValue digits 0 < 9223372036854775808 := by omega
      simp [parseEnvValue, ParseInt_digits digits hne hd, hnot]
    · intro hbig
      have hnot : ¬ decimalValue digits 0 ≤ 9223372036854775808 := by omega
      simp [parseEnvValue, ParseInt_minus_digits digits hne hd, hnot]

/-- C13 (witness): `abc` is a syntax error for `ParseInt` and coerces to 0;
`maybe` is no boolean token and coerces to `false`. -/
theorem parseEnvValue_malformed_witness :
    (ParseInt "abc").2 = some NumError.malformed ∧
    parseEnvValue "abc" Kind.int = Value.int64 0 ∧
    parseEnvValue "maybe" Kind.bool = Value.bool false :=
  ⟨by decide, (parseEnvValue_malformed "abc").2.1 (by decide),
    (parseEnvValue_malformed "maybe").2.2.2.1 (by decide)⟩

/-! ## Errors of the assemblers -/

/-- The keyper assembler returns every failure to read or decode its two
input files as an error value without calling `os.WriteFile`, and it returns
`nil` only after a successful `os.WriteFile` of the encoded overlay. -/
theorem AddSettingsToKeyper_errors (lib : Libraries) (fs : FileSystem) (env : Env)
    (t c o : String) :
    (ReadFile fs c = none → AddSettingsToKeyper lib fs env t c o
      = ⟨[], Outcome.error Step.readConfig⟩) ∧
    (∀ configFile, ReadFile fs c = some configFile → lib.unmarshalKeyper configFile = none →
      AddSettingsToKeyper lib fs env t c o = ⟨[], Outcome.error Step.parseConfig⟩) ∧
    (∀ configFile keyperConfig, ReadFile fs c = some configFile →
      lib.unmarshalKeyper configFile = some keyperConfig → ReadFile fs t = none →
      AddSettingsToKeyper lib fs env t c o = ⟨[], Outcome.error Step.readTemplate⟩) ∧
    (∀ configFile keyperConfig templateFile, ReadFile fs c = some configFile →
      lib.unmarshalKeyper configFile = some keyperConfig → ReadFile fs t = some templateFile →
      lib.unmarshalMap templateFile = none →
      AddSettingsToKeyper lib fs env t c o = ⟨[], Outcome.error Step.parseTemplate⟩) ∧
    ((AddSettingsToKeyper lib fs env t c o).outcome = Outcome.ok →
      fs.writable o = true ∧
      ∃ configFile keyperConfig templateFile templateConfig merged data,
        ReadFile fs c = some configFile ∧ lib.unmarshalKeyper configFile = some keyperConfig ∧
        ReadFile fs t = some templateFile ∧ lib.unmarshalMap templateFile = some templateConfig ∧
        keyperOverlay env templateConfig keyperConfig = some merged ∧
        lib.marshal merged = some data ∧
        (AddSettingsToKeyper lib fs env t c o).writes = [(o, data)]) := by
  refine ⟨?_, ?_, ?_, ?_, ?_⟩
  · intro h1
    unfold AddSettingsToKeyper
    simp only [h1]
  · intro configFile h1 h2
    unfold AddSettingsToKeyper
    simp only [h1, h2]
  · intro configFile keyperConfig h1 h2 h3
    unfold AddSettingsToKeyper
    simp only [h1, h2, h3]
  · intro configFile keyperConfig templateFile h1 h2 h3 h4
    unfold AddSettingsToKeyper
    simp only [h1, h2, h3, h4]
  · intro hok
    unfold AddSettingsToKeyper at hok ⊢
    cases h1 : ReadFile fs c with
    | none => simp [h1] at hok
    | some configFile =>
      simp only [h1] at hok ⊢
      cases h2 : lib.unmarshalKeyper configFile with
      | none => simp [h2] at hok
      | some keyperConfig =>
        simp only [h2] at hok ⊢
        cases h3 : ReadFile fs t with
        | none => simp [h3] at hok
        | some templateFile =>
          simp only [h3] at hok ⊢
          cases h4 : lib.unmarshalMap templateFile with
          | none => simp [h4] at hok
          | some templateConfig =>
            simp only [h4] at hok ⊢
            cases h5 : keyperOverlay env templateConfig keyperConfig with
            | none => simp [h5] at hok
            | some merged =>
              simp only [h5] at hok ⊢
              cases h6 : lib.marshal merged with
              | none => simp [h6] at hok
              | some data =>
                simp only [h6] at hok ⊢
                by_cases hw : fs.writable o = true
                · exact ⟨hw, configFile, keyperConfig, templateFile, templateConfig, merged,
                    data, rfl, h2, rfl, h4, h5, h6, by simp [hw]⟩
                · simp [hw] at hok

/-- C14 (failing input): `SHUTTER_CHAIN_CONFIG_FILE` names a path where no
file exists.  The chain assembler does not return an error value: it ends the
process itself with `os.Exit(1)`, and `main` ends with exit code 1 through
that call. -/
theorem chain_assembler_exits_itself :
    ReadFile (filesOf [("/cfg.toml", "B")])
      (Getenv (envOf [("SHUTTER_CHAIN_CONFIG_FILE", "/chain.toml")])
        "SHUTTER_CHAIN_CONFIG_FILE") = none ∧
    AddSettingsToChain lineLibraries (filesOf [("/cfg.toml", "B")])
      (envOf [("SHUTTER_CHAIN_CONFIG_FILE", "/chain.toml")]) "/cfg.toml" "/out.toml"
      = ⟨[], Outcome.exited 1⟩ ∧
    AddSettingsToKeyper lineLibraries (filesOf [("/tpl.toml", "B")]) emptyEnv "/tpl.toml"
      "/keyper.toml" "/out.toml" = ⟨[], Outcome.error Step.readConfig⟩ := by
  decide

/-! ## Termination of the keyper loop -/

/-- The loop of `applyKeyperConfig` panics as soon as some field has its
variable unset or empty, a zero config value, and no entry in the template. -/
theorem applyKeyperConfig_panics_of_absent (env : Env) (tmpl : ConfigMap) (cfg : KeyperConfig)
    (f : StructField) (hf : f ∈ keyperFields) (he : Getenv env f.Tag = "")
    (hz : isZeroValue (f.Interface cfg) = some true) (hk : tmpl f.Name = none) :
    applyKeyperConfig env tmpl cfg = none := by
  cases h : applyKeyperConfig env tmpl cfg with
  | none => rfl
  | some m =>
    have hall := (applyKeyperConfig_isSome_iff env tmpl cfg).1 (by simp [h]) f hf
    unfold returns at hall
    simp [he, hz, hk] at hall

/-- C15 (failing input): the template has no entry `CustomBootstrapAddresses`,
the variable of that field is unset and the config value is the nil list.
The fallback reads nil, `isZeroValue` panics on it, `setTemplateField` and the
iteration do not return, and `applyKeyperConfig` panics instead of leaving the
key absent. -/
theorem missing_key_panics :
    templateWithoutBootstrap "CustomBootstrapAddresses" = none ∧
    Getenv emptyEnv "_ASSETS_CUSTOM_BOOTSTRAP_ADDRESSES" = "" ∧
    isZeroValue (Value.strSlice ({} : KeyperConfig).CustomBootstrapAddresses) = some true ∧
    index templateWithoutBootstrap "CustomBootstrapAddresses" = Value.nil ∧
    isZeroValue Value.nil = none ∧
    setTemplateField templateWithoutBootstrap "CustomBootstrapAddresses" Value.nil = none ∧
    resolveField emptyEnv {} templateWithoutBootstrap keyperFields[10] = none ∧
    applyKeyperConfig emptyEnv templateWithoutBootstrap {} = none :=
  ⟨by decide, by decide, by decide, by decide, rfl, rfl, rfl, rfl⟩

/-! ## The coarse overlay after the keyper loop -/

theorem applyEnvOverrides_privateKey (env : Env) (m : ConfigMap) :
    applyEnvOverrides env m "PrivateKey" =
      if Getenv env "PRIVATE_KEY" ≠ "" then some (Value.str (Getenv env "PRIVATE_KEY"))
      else m "PrivateKey" := by
  have hne : ("PrivateKey" : String) ≠ "InstanceID" := by decide
  unfold applyEnvOverrides
  by_cases e1 : Getenv env "PRIVATE_KEY" = "" <;> by_cases e2 : Getenv env "INSTANCE_ID" = ""
    <;> simp [e1, e2, assign, hne]

theorem applyEnvOverrides_instanceID (env : Env) (m : ConfigMap) :
    applyEnvOverrides env m "InstanceID" =
      if Getenv env "INSTANCE_ID" ≠ "" then some (Value.str (Getenv env "INSTANCE_ID"))
      else m "InstanceID" := by
  have hne : ("InstanceID" : String) ≠ "PrivateKey" := by decide
  unfold applyEnvOverrides
  by_cases e1 : Getenv env "PRIVATE_KEY" = "" <;> by_cases e2 : Getenv env "INSTANCE_ID" = ""
    <;> simp [e1, e2, assign, hne]

/-- C16 (failing input): `INSTANCE_ID=9`, the template `{InstanceID: 1}` and a
config with all fields zero.  The iteration of `InstanceID` falls back to the
template's 1, the next one (`MaxNumKeysPerMessage`) reads nil and panics, so
`applyKeyperConfig` returns no mapping, `applyEnvOverrides` is never reached
and there is no final entry at `InstanceID`, where the string `9` should be. -/
theorem instance_id_overlay_lost_by_panic :
    Getenv (envOf [("INSTANCE_ID", "9")]) "INSTANCE_ID" = "9" ∧
    valueAt (resolveField (envOf [("INSTANCE_ID", "9")]) {}
      (mapOf [("InstanceID", Value.int64 1)]) keyperFields[0]) "InstanceID"
      = some (some (Value.int64 1)) ∧
    index (mapOf [("InstanceID", Value.int64 1)]) "MaxNumKeysPerMessage" = Value.nil ∧
    resolveField (envOf [("INSTANCE_ID", "9")]) {} (mapOf [("InstanceID", Value.int64 1)])
      keyperFields[1] = none ∧
    applyKeyperConfig (envOf [("INSTANCE_ID", "9")]) (mapOf [("InstanceID", Value.int64 1)]) {}
      = none ∧
    keyperOverlay (envOf [("INSTANCE_ID", "9")]) (mapOf [("InstanceID", Value.int64 1)]) {}
      = none :=
  ⟨by decide, by decide, by decide, rfl, rfl, rfl⟩

/-- What holds of `InstanceID` when the loop returns: for every mapping
`applyKeyperConfig` returns,
when `INSTANCE_ID` is a non-empty string `s` the final entry at `InstanceID` is
the string `s` itself, which is no integer value, whatever entry the loop left
there; when `INSTANCE_ID` is unset or empty the final entry is the one left by
`applyKeyperConfig`. -/
theorem keyperOverlay_instanceID (env : Env) (tmpl : ConfigMap) (cfg : KeyperConfig)
    (m1 : ConfigMap) (h : applyKeyperConfig env tmpl cfg = some m1) :
    ∃ out, keyperOverlay env tmpl cfg = some out ∧
      (Getenv env "INSTANCE_ID" ≠ "" →
        out "InstanceID" = some (Value.str (Getenv env "INSTANCE_ID")) ∧
        ∀ n : Int, Value.str (Getenv env "INSTANCE_ID") ≠ Value.int n ∧
          Value.str (Getenv env "INSTANCE_ID") ≠ Value.int64 n) ∧
      (Getenv env "INSTANCE_ID" = "" → out "InstanceID" = m1 "InstanceID") := by
  refine ⟨applyEnvOverrides env m1, by simp [keyperOverlay, h], ?_, ?_⟩
  · intro hs
    refine ⟨by rw [applyEnvOverrides_instanceID]; simp [hs], ?_⟩
    intro n
    exact ⟨by simp, by simp⟩
  · intro hs
    rw [applyEnvOverrides_instanceID]
    simp [hs]

/-- An instance of the previous theorem: with `INSTANCE_ID=9` and
`_ASSETS_INSTANCE_ID=7` over the full template and the config
`{InstanceID: 5}`, the loop leaves the `int64` 7 and the final entry is the
string `9`. -/
theorem keyperOverlay_instanceID_witness :
    valueAt (applyKeyperConfig (envOf [("INSTANCE_ID", "9"), ("_ASSETS_INSTANCE_ID", "7")])
      fullTemplate { InstanceID := 5 }) "InstanceID" = some (some (Value.int64 7)) ∧
    valueAt (keyperOverlay (envOf [("INSTANCE_ID", "9"), ("_ASSETS_INSTANCE_ID", "7")])
      fullTemplate { InstanceID := 5 }) "InstanceID" = some (some (Value.str "9")) := by
  refine ⟨by decide, ?_⟩
  obtain ⟨out, hout, h1, _⟩ := keyperOverlay_instanceID
    (envOf [("INSTANCE_ID", "9"), ("_ASSETS_INSTANCE_ID", "7")]) fullTemplate
    { InstanceID := 5 } _ rfl
  rw [hout]
  simp only [valueAt, Option.map_some']
  rw [(h1 (by decide)).1]
  decide

/-! ## Running an overlay on its own result -/

theorem resolved_idem (env : Env) (c : KeyperConfig) (f : StructField) (old : Option Value) :
    resolved env c f (resolved env c f old) = resolved env c f old := by
  unfold resolved
  split_ifs <;> rfl

theorem applyEnvOverrides_non_nil (env : Env) (m : ConfigMap) (k : String)
    (h : m k ≠ none ∧ m k ≠ some Value.nil) :
    applyEnvOverrides env m k ≠ none ∧ applyEnvOverrides env m k ≠ some Value.nil := by
  by_cases hp : k = "PrivateKey"
  · subst hp
    rw [applyEnvOverrides_privateKey]
    split_ifs
    · simp
    · exact h
  · by_cases hi : k = "InstanceID"
    · subst hi
      rw [applyEnvOverrides_instanceID]
      split_ifs
      · simp
      · exact h
    · rw [applyEnvOverrides_frame env m k hp hi]
      exact h

theorem keyperOverlay_idem (env : Env) (tmpl out : ConfigMap) (cfg : KeyperConfig)
    (h : keyperOverlay env tmpl cfg = some out) : keyperOverlay env out cfg = some out := by
  have hpk : "PrivateKey" ∉ keyperFields.map StructField.Name := by decide
  unfold keyperOverlay at h
  cases hm : applyKeyperConfig env tmpl cfg with
  | none => simp [hm] at h
  | some m1 =>
    simp only [hm, Option.map_some', Option.some.injEq] at h
    have hret1 := (applyKeyperConfig_isSome_iff env tmpl cfg).1 (by simp [hm])
    have hret2 : ∀ f ∈ keyperFields, returns env cfg f (out f.Name) := by
      intro f hf
      have hr := hret1 f hf
      unfold returns at hr ⊢
      by_cases he : Getenv env f.Tag = ""
      · by_cases hz : isZeroValue (f.Interface cfg) = some false
        · exact Or.inr (Or.inl hz)
        · rcases hr with hr | hr | hr
          · exact absurd he hr
          · exact absurd hr hz
          · refine Or.inr (Or.inr ⟨hr.1, ?_⟩)
            rw [← h]
            apply applyEnvOverrides_non_nil
            rw [applyKeyperConfig_at hm f hf]
            unfold resolved
            simp only [he, ne_eq, not_true_eq_false, if_false, hz]
            exact hr.2
      · exact Or.inl he
    obtain ⟨m2, hm2⟩ := Option.isSome_iff_exists.1
      ((applyKeyperConfig_isSome_iff env out cfg).2 hret2)
    unfold keyperOverlay
    rw [hm2]
    simp only [Option.map_some', Option.some.injEq]
    have hfield : ∀ f ∈ keyperFields, applyEnvOverrides env m1 f.Name = m1 f.Name →
        m2 f.Name = m1 f.Name := by
      intro f hf hsame
      rw [applyKeyperConfig_at hm2 f hf, ← h, hsame, applyKeyperConfig_at hm f hf,
        resolved_idem]
    funext k
    by_cases hp : k = "PrivateKey"
    · subst hp
      rw [applyEnvOverrides_privateKey, applyKeyperConfig_frame hm2 _ hpk, ← h,
        applyEnvOverrides_privateKey]
      split_ifs <;> rfl
    · by_cases hi : k = "InstanceID"
      · subst hi
        rw [← h, applyEnvOverrides_instanceID, applyEnvOverrides_instanceID]
        by_cases hs : Getenv env "INSTANCE_ID" = ""
        · simp only [hs, ne_eq, not_true_eq_false, if_false]
          have hsame : applyEnvOverrides env m1 "InstanceID" = m1 "InstanceID" := by
            rw [applyEnvOverrides_instanceID]
            simp [hs]
          exact hfield keyperFields[0] (List.getElem_mem _) hsame
        · simp [hs]
      · rw [applyEnvOverrides_frame env m2 k hp hi, ← h, applyEnvOverrides_frame env m1 k hp hi]
        by_cases hmem : k ∈ keyperFields.map StructField.Name
        · obtain ⟨f, hf, rfl⟩ := List.mem_map.1 hmem
          exact hfield f hf (applyEnvOverrides_frame env m1 f.Name hp hi)
        · rw [applyKeyperConfig_frame hm2 k hmem, ← h, applyEnvOverrides_frame env m1 k hp hi]

theorem chainOverlay_idem (env : Env) (tmpl : ConfigMap) (cfg : ChainConfig) :
    chainOverlay env (chainOverlay env tmpl cfg) cfg = chainOverlay env tmpl cfg := by
  have hne : ("InstanceID" : String) ≠ "PrivateKey" := by decide
  funext k
  unfold chainOverlay applyEnvOverrides applyChainConfig
  by_cases e1 : Getenv env "PRIVATE_KEY" = "" <;> by_cases e2 : Getenv env "INSTANCE_ID" = ""
    <;> by_cases c1 : cfg.PrivateKey = "" <;> by_cases c2 : cfg.InstanceID = ""
    <;> by_cases hp : k = "PrivateKey" <;> by_cases hi : k = "InstanceID"
    <;> simp [e1, e2, c1, c2, hp, hi, assign, hne]

/-- C17: whenever the keyper overlay returns a mapping, running it again on
that mapping with the same config and environment returns the same mapping;
the chain overlay applied to its own result gives that result again. -/
theorem overlay_idempotent (env : Env) (tmpl : ConfigMap) :
    (∀ (cfg : KeyperConfig) (out : ConfigMap), keyperOverlay env tmpl cfg = some out →
      keyperOverlay env out cfg = some out) ∧
    (∀ cfg : ChainConfig,
      chainOverlay env (chainOverlay env tmpl cfg) cfg = chainOverlay env tmpl cfg) :=
  ⟨fun cfg out h => keyperOverlay_idem env tmpl out cfg h,
    fun cfg => chainOverlay_idem env tmpl cfg⟩

/-- C17 (witness): the keyper overlay of the full template with
`INSTANCE_ID=9`, `SHUTTER_ENABLED=false` and the config `{InstanceID: 5}`
returns, and a second run on its result returns that result. -/
theorem overlay_idempotent_witness :
    (keyperOverlay (envOf [("INSTANCE_ID", "9"), ("SHUTTER_ENABLED", "false")]) fullTemplate
      { InstanceID := 5 }).isSome = true ∧
    keyperOverlay (envOf [("INSTANCE_ID", "9"), ("SHUTTER_ENABLED", "false")])
      (Option.getD (keyperOverlay (envOf [("INSTANCE_ID", "9"), ("SHUTTER_ENABLED", "false")])
        fullTemplate { InstanceID := 5 }) emptyMap) { InstanceID := 5 }
      = some (Option.getD (keyperOverlay
          (envOf [("INSTANCE_ID", "9"), ("SHUTTER_ENABLED", "false")]) fullTemplate
          { InstanceID := 5 }) emptyMap) :=
  ⟨by decide,
    (overlay_idempotent (envOf [("INSTANCE_ID", "9"), ("SHUTTER_ENABLED", "false")])
      fullTemplate).1 { InstanceID := 5 } _ rfl⟩

end Settings
